import Mathlib

/-!
Verification development for the task-manager todo service: a shallow
embedding of the task model, repository, look-aside cache, cache-key
derivation and service orchestration layer, together with theorems about
the behavioural properties of those components.

Sources embedded:
- `todo-service/internal/model/task.go` (task record, status/priority enums,
  proto conversions, `BeforeCreate` id assignment);
- `todo-service/internal/repository/task_repository.go` (CRUD + list with
  filtering, sorting via `applySorting`/`mapSortField`, offset pagination);
- `todo-service/internal/cache/task_cache.go` and `todo-service/pkg/redis`
  (single-entity and page cache over a string-keyed store, pattern
  invalidation via `InvalidateUserTasks`);
- the task service (`CreateTask` .. `ListTasksByUser`,
  `validateCreateTaskRequest`, `generateCacheKey`, `generateUserCacheKey`).

Modelling conventions:
- timestamps are `Nat` (a logical clock `now` carried by the world state);
- UUID generation is a counter-backed supply of fresh non-empty strings
  (`uuid.New().String()` always returns a non-empty string);
- the relational store is a list of task rows; GORM's `Find` into a slice
  always leaves a non-nil slice (its scan initializes the destination with
  `reflect.MakeSlice` before iterating rows), so list results are modelled
  as `Option (List Task)` and the repository always returns `some`;
  JSON serialization maps a nil slice to `null` and back, an empty non-nil
  slice to `[]` and back, which the page-cache model mirrors;
- cache infrastructure failure is modelled by a `down` flag making every
  cache operation return an error, matching the "simulated failure on
  every call" scenario.
-/

namespace TaskManager

/-- Task status enum (`model.TaskStatus`): todo / in_progress / done / archived. -/
inductive TaskStatus where
  | todo
  | inProgress
  | done
  | archived
deriving DecidableEq, Repr

/-- Task priority enum (`model.TaskPriority`): low / medium / high / urgent. -/
inductive TaskPriority where
  | low
  | medium
  | high
  | urgent
deriving DecidableEq, Repr

/-- Task record (`model.Task`). Timestamps are logical `Nat` instants;
`dueDate` is the nullable `*time.Time` field. -/
structure Task where
  id : String
  userID : String
  title : String
  description : String
  status : TaskStatus
  priority : TaskPriority
  dueDate : Option Nat
  createdAt : Nat
  updatedAt : Nat
deriving DecidableEq, Repr

/-- `model.Task.ToProtoStatus`. -/
def toProtoStatus : TaskStatus → String
  | .todo => "TODO"
  | .inProgress => "IN_PROGRESS"
  | .done => "DONE"
  | .archived => "ARCHIVED"

/-- `model.Task.FromProtoStatus`: exact-match on the proto name, anything
else (including a differently-cased spelling) falls back to `todo`. -/
def fromProtoStatus (status : String) : TaskStatus :=
  if status = "TODO" then .todo
  else if status = "IN_PROGRESS" then .inProgress
  else if status = "DONE" then .done
  else if status = "ARCHIVED" then .archived
  else .todo

/-- `model.Task.ToProtoPriority`. -/
def toProtoPriority : TaskPriority → String
  | .low => "LOW"
  | .medium => "MEDIUM"
  | .high => "HIGH"
  | .urgent => "URGENT"

/-- `model.Task.FromProtoPriority`: exact-match on the proto name, anything
else falls back to `medium`. -/
def fromProtoPriority (priority : String) : TaskPriority :=
  if priority = "LOW" then .low
  else if priority = "MEDIUM" then .medium
  else if priority = "HIGH" then .high
  else if priority = "URGENT" then .urgent
  else .medium

/-- Service-level create request (`service.CreateTaskRequest`); `status` and
`priority` are plain strings where `""` means "omitted". -/
structure CreateTaskRequest where
  userID : String
  title : String
  description : String
  status : String
  priority : String
  dueDate : Option Nat
deriving DecidableEq, Repr

/-- Service-level partial-update request (`service.UpdateTaskRequest`); each
updatable field is a pointer modelled as `Option`. -/
structure UpdateTaskRequest where
  id : String
  userID : String
  title : Option String
  description : Option String
  status : Option String
  priority : Option String
  dueDate : Option Nat
deriving DecidableEq, Repr

/-- `strings.ToUpper`, modelled as a per-character map (exact for the
ASCII data this service compares). -/
def strUpper (s : String) : String := ⟨s.data.map Char.toUpper⟩

/-- `strings.ToLower`, modelled as a per-character map (exact for ASCII). -/
def strLower (s : String) : String := ⟨s.data.map Char.toLower⟩

/-- The allow-list used by `validateCreateTaskRequest` for statuses. -/
def validStatuses : List String := ["TODO", "IN_PROGRESS", "DONE", "ARCHIVED"]

/-- The allow-list used by `validateCreateTaskRequest` for priorities. -/
def validPriorities : List String := ["LOW", "MEDIUM", "HIGH", "URGENT"]

/-- `taskService.validateCreateTaskRequest`: returns `some message` on the
first failing check, `none` when the request is valid. Title length is the
byte length (Go `len` on a string counts bytes). Status/priority are
compared upper-cased (`strings.ToUpper`). -/
def validateCreateTaskRequest (req : CreateTaskRequest) : Option String :=
  if req.userID = "" then some "user_id is required"
  else if req.title = "" then some "title is required"
  else if req.title.utf8ByteSize > 255 then some "title must be less than 255 characters"
  else if req.status ≠ "" ∧ ¬ (strUpper req.status ∈ validStatuses) then
    some "status must be one of: [TODO IN_PROGRESS DONE ARCHIVED]"
  else if req.priority ≠ "" ∧ ¬ (strUpper req.priority ∈ validPriorities) then
    some "priority must be one of: [LOW MEDIUM HIGH URGENT]"
  else none

/-! ## Repository (`task_repository.go`) -/

/-- `repository.TaskFilter`: nullable exact-match filters plus sort request.
`sortBy = ""` means no sort requested. -/
structure TaskFilter where
  status : Option String
  priority : Option String
  userID : Option String
  sortBy : String
  sortDesc : Bool
deriving DecidableEq, Repr

/-- `repository.mapSortField`: lower-cased allow-list lookup; any
unrecognized name maps to the `created_at` column. -/
def mapSortField (field : String) : String :=
  let f := strLower field
  if f = "title" then "title"
  else if f = "status" then "status"
  else if f = "priority" then "priority"
  else if f = "due_date" then "due_date"
  else if f = "created_at" then "created_at"
  else if f = "updated_at" then "updated_at"
  else "created_at"

/-- `repository.applySorting`, as the ORDER BY clause it attaches to the
query: `created_at DESC` when no filter or no sort field; otherwise the
mapped column followed by the requested direction. -/
def applySorting (filter : Option TaskFilter) : String :=
  match filter with
  | none => "created_at DESC"
  | some f =>
      if f.sortBy = "" then "created_at DESC"
      else mapSortField f.sortBy ++ " " ++ (if f.sortDesc then "DESC" else "ASC")

/-- Column comparison used to model the database executing an ORDER BY
clause produced by `applySorting`. Ties and NULL placement are unspecified
by the source; this model uses a fixed deterministic choice. -/
def clauseLe (clause : String) (a b : Task) : Bool :=
  let le :=
    if clause = "title ASC" ∨ clause = "title DESC" then a.title ≤ b.title
    else if clause = "status ASC" ∨ clause = "status DESC" then
      toProtoStatus a.status ≤ toProtoStatus b.status
    else if clause = "priority ASC" ∨ clause = "priority DESC" then
      toProtoPriority a.priority ≤ toProtoPriority b.priority
    else if clause = "due_date ASC" ∨ clause = "due_date DESC" then
      a.dueDate.getD 0 ≤ b.dueDate.getD 0
    else if clause = "updated_at ASC" ∨ clause = "updated_at DESC" then
      a.updatedAt ≤ b.updatedAt
    else a.createdAt ≤ b.createdAt
  let desc := clause = "title DESC" ∨ clause = "status DESC" ∨
    clause = "priority DESC" ∨ clause = "due_date DESC" ∨
    clause = "updated_at DESC" ∨ clause = "created_at DESC"
  if desc then !le else le

/-- Insertion into a list sorted by `le` (model of the database ordering rows). -/
def insertBy (le : Task → Task → Bool) (t : Task) : List Task → List Task
  | [] => [t]
  | x :: xs => if le t x then t :: x :: xs else x :: insertBy le t xs

/-- Deterministic sort modelling the ORDER BY execution. -/
def sortTasks (clause : String) (l : List Task) : List Task :=
  l.foldr (insertBy (clauseLe clause)) []

/-- Whether a row passes the optional filters of `taskRepository.List`
(status, priority, user id; a nil or empty filter value matches everything). -/
def matchesFilter (filter : Option TaskFilter) (t : Task) : Bool :=
  match filter with
  | none => true
  | some f =>
      (match f.status with
       | some s => if s = "" then true else toProtoStatus t.status == s
       | none => true) &&
      (match f.priority with
       | some p => if p = "" then true else toProtoPriority t.priority == p
       | none => true) &&
      (match f.userID with
       | some u => if u = "" then true else t.userID == u
       | none => true)

/-- Status/priority part of the filter only, as applied by
`taskRepository.ListByUser` (which never consults `filter.userID`). -/
def matchesFilterNoUser (filter : Option TaskFilter) (t : Task) : Bool :=
  match filter with
  | none => true
  | some f =>
      (match f.status with
       | some s => if s = "" then true else toProtoStatus t.status == s
       | none => true) &&
      (match f.priority with
       | some p => if p = "" then true else toProtoPriority t.priority == p
       | none => true)

/-- Fresh identifier supply standing in for `uuid.New().String()`:
always a non-empty string. -/
def freshId (n : Nat) : String := "uuid-" ++ Nat.repr n

/-- `taskRepository.Create` plus the `BeforeCreate` hook and GORM's
timestamp assignment: assigns a fresh id when the id is empty, stamps
`createdAt`/`updatedAt`, appends the row. Returns the stored row and the
new table. -/
def repoCreate (db : List Task) (fresh now : Nat) (t : Task) : Task × List Task :=
  let stored := { t with
    id := if t.id = "" then freshId fresh else t.id,
    createdAt := now,
    updatedAt := now }
  (stored, db ++ [stored])

/-- `taskRepository.FindByID`: first row with the id, `none` when absent
(the Go code maps `gorm.ErrRecordNotFound` to `nil, nil`). -/
def findByID (db : List Task) (id : String) : Option Task :=
  db.find? (fun t => t.id == id)

/-- `taskRepository.FindByIDAndUser`: first row matching both id and owner;
an owner mismatch is indistinguishable from a missing row (`nil, nil`). -/
def findByIDAndUser (db : List Task) (id userID : String) : Option Task :=
  db.find? (fun t => t.id == id && t.userID == userID)

/-- `taskRepository.Update` (GORM `Save` by primary key): replaces the row
with the same id, refreshing `updatedAt`; `none` models the
"no task found to update" error when no row is affected. -/
def repoUpdate (db : List Task) (now : Nat) (t : Task) : Option (Task × List Task) :=
  if db.any (fun x => x.id == t.id) then
    let stored := { t with updatedAt := now }
    some (stored, db.map (fun x => if x.id == t.id then stored else x))
  else none

/-- `taskRepository.Delete`: removes the row with the id; `none` models the
"no task found to delete" error when no row is affected. -/
def repoDelete (db : List Task) (id : String) : Option (List Task) :=
  if db.any (fun x => x.id == id) then
    some (db.filter (fun x => !(x.id == id)))
  else none

/-- `taskRepository.DeleteByUser`: removes the row matching id and owner. -/
def repoDeleteByUser (db : List Task) (id userID : String) : Option (List Task) :=
  if db.any (fun x => x.id == id && x.userID == userID) then
    some (db.filter (fun x => !(x.id == id && x.userID == userID)))
  else none

/-- `taskRepository.List`: filter, count, sort, then OFFSET/LIMIT paginate.
The result slice is always non-nil (`some`): GORM's scan initializes the
destination slice before reading rows. -/
def repoList (db : List Task) (filter : Option TaskFilter) (page pageSize : Nat) :
    Option (List Task) × Nat :=
  let rows := db.filter (matchesFilter filter)
  let total := rows.length
  let sorted := sortTasks (applySorting filter) rows
  (some ((sorted.drop ((page - 1) * pageSize)).take pageSize), total)

/-- `taskRepository.ListByUser`: rows of one owner, status/priority filters
only, count, sort, paginate. Result slice always non-nil. -/
def repoListByUser (db : List Task) (userID : String) (filter : Option TaskFilter)
    (page pageSize : Nat) : Option (List Task) × Nat :=
  let rows := db.filter (fun t => t.userID == userID && matchesFilterNoUser filter t)
  let total := rows.length
  let sorted := sortTasks (applySorting filter) rows
  (some ((sorted.drop ((page - 1) * pageSize)).take pageSize), total)

/-! ## Look-aside cache (`task_cache.go` over `pkg/redis`) -/

/-- JSON image of the cached page's task slice: a nil slice marshals to
`null`, any non-nil slice (empty included) marshals to an array. -/
inductive JsonTasks where
  | null
  | arr (tasks : List Task)
deriving DecidableEq, Repr

/-- `json.Marshal` on the `Tasks []*model.Task` field of the page struct. -/
def marshalTasks : Option (List Task) → JsonTasks
  | none => .null
  | some l => .arr l

/-- `json.Unmarshal` back into the `Tasks` field. -/
def unmarshalTasks : JsonTasks → Option (List Task)
  | .null => none
  | .arr l => some l

/-- A value stored in the cache: the serialized single task
(`SetTask`) or serialized page struct (`SetTasksList`). -/
inductive CacheEntry where
  | taskE (t : Task)
  | pageE (tasks : JsonTasks) (total : Nat)
deriving DecidableEq, Repr

/-- Cache state: the redis key space, plus a `down` flag under which every
operation fails (infrastructure failure on every call). -/
structure Cache where
  down : Bool
  entries : List (String × CacheEntry)
deriving DecidableEq, Repr

/-- Value under a key, if present. -/
def cacheLookup (c : Cache) (key : String) : Option CacheEntry :=
  (c.entries.find? (fun e => e.1 == key)).map (fun e => e.2)

/-- Redis SET: replace-or-add a key. -/
def cacheStore (c : Cache) (key : String) (v : CacheEntry) : Cache :=
  { c with entries := c.entries.filter (fun e => !(e.1 == key)) ++ [(key, v)] }

/-- `taskCache.GetTask`: key `task:<id>`; an absent key is a miss
(`nil, nil`), a value of the wrong shape is an unmarshal error. -/
def cacheGetTask (c : Cache) (id : String) : Except Unit (Option Task) :=
  if c.down then .error () else
  match cacheLookup c ("task:" ++ id) with
  | none => .ok none
  | some (.taskE t) => .ok (some t)
  | some (.pageE _ _) => .error ()

/-- `taskCache.SetTask`: stores the serialized task under `task:<id>`. -/
def cacheSetTask (c : Cache) (t : Task) : Except Unit Cache :=
  if c.down then .error () else
  .ok (cacheStore c ("task:" ++ t.id) (.taskE t))

/-- `taskCache.DeleteTask`: removes `task:<id>`. -/
def cacheDeleteTask (c : Cache) (id : String) : Except Unit Cache :=
  if c.down then .error () else
  .ok { c with entries := c.entries.filter (fun e => !(e.1 == "task:" ++ id)) }

/-- `taskCache.GetTasksList`: absent key is a miss (`nil, 0, nil`); a
present page entry is unmarshalled (its task slice keeps its nil-ness). -/
def cacheGetTasksList (c : Cache) (key : String) :
    Except Unit (Option (List Task) × Nat) :=
  if c.down then .error () else
  match cacheLookup c key with
  | none => .ok (none, 0)
  | some (.pageE j total) => .ok (unmarshalTasks j, total)
  | some (.taskE _) => .error ()

/-- `taskCache.SetTasksList`: marshals `{tasks, total}` and stores it under
the caller-provided key, exactly as given (no prefix is added). -/
def cacheSetTasksList (c : Cache) (key : String) (tasks : Option (List Task))
    (total : Nat) : Except Unit Cache :=
  if c.down then .error () else
  .ok (cacheStore c key (.pageE (marshalTasks tasks) total))

/-- The redis glob `tasks:user:<userID>:*` used by `InvalidateUserTasks`:
matches exactly the keys having that fixed prefix (`*` matches any
suffix, empty included); the test is on the key's character sequence. -/
def matchesUserPattern (userID key : String) : Bool :=
  ("tasks:user:" ++ userID ++ ":").data.isPrefixOf key.data

/-- `taskCache.InvalidateUserTasks`: deletes every key matching the pattern
`tasks:user:<userID>:*` (via `DeleteTasksList` / `redis.DeletePattern`). -/
def cacheInvalidateUserTasks (c : Cache) (userID : String) : Except Unit Cache :=
  if c.down then .error () else
  .ok { c with entries := c.entries.filter (fun e => !(matchesUserPattern userID e.1)) }

/-! ## Cache-key derivation (`generateCacheKey`, `generateUserCacheKey`) -/

/-- Go's `filter.X != nil && *filter.X != ""` presence test. -/
def optSet : Option String → Bool
  | some s => !(s == "")
  | none => false

/-- `strings.Join(parts, ":")`. -/
def joinColon : List String → String
  | [] => ""
  | [s] => s
  | s :: rest => s ++ ":" ++ joinColon rest

/-- The `sortDir` local of the key-derivation functions: `desc` when the
descending direction was requested, `asc` otherwise. -/
def dirStr (d : Bool) : String := if d then "desc" else "asc"

/-- The shared middle of `generateCacheKey`/`generateUserCacheKey`: append
the optional `status:`, `priority:`, (for the unscoped variant only)
`user:` and `sort:` segments to the accumulated parts, in that fixed
order. -/
def appendFilterParts (parts : List String) (filter : Option TaskFilter)
    (includeUserFilter : Bool) : List String :=
  match filter with
  | none => parts
  | some f =>
      let parts := if optSet f.status then parts ++ ["status:" ++ f.status.getD ""] else parts
      let parts := if optSet f.priority then parts ++ ["priority:" ++ f.priority.getD ""] else parts
      let parts :=
        if includeUserFilter then
          if optSet f.userID then parts ++ ["user:" ++ f.userID.getD ""] else parts
        else parts
      if f.sortBy = "" then parts
      else parts ++ ["sort:" ++ f.sortBy ++ ":" ++ dirStr f.sortDesc]

/-- `taskService.generateCacheKey`: prefix, then optional `status:`,
`priority:`, `user:` and `sort:` segments, then `page:` and `size:`,
joined with `:`. -/
def generateCacheKey (pfx : String) (filter : Option TaskFilter)
    (page pageSize : Nat) : String :=
  let parts : List String := [pfx]
  let parts := appendFilterParts parts filter true
  let parts := parts ++ ["page:" ++ Nat.repr page, "size:" ++ Nat.repr pageSize]
  joinColon parts

/-- `taskService.generateUserCacheKey`: prefix and `user:<userID>` first,
then optional `status:`, `priority:` and `sort:` segments (the filter's own
user field is ignored), then `page:` and `size:`. -/
def generateUserCacheKey (userID pfx : String) (filter : Option TaskFilter)
    (page pageSize : Nat) : String :=
  let parts : List String := [pfx, "user:" ++ userID]
  let parts := appendFilterParts parts filter false
  let parts := parts ++ ["page:" ++ Nat.repr page, "size:" ++ Nat.repr pageSize]
  joinColon parts

/-! ## Service orchestration (`taskService`) -/

/-- gRPC status codes the service returns (`codes.InvalidArgument`,
`codes.NotFound`, `codes.PermissionDenied`, `codes.Internal`). -/
inductive SvcError where
  | invalidArgument (msg : String)
  | notFound
  | permissionDenied
  | internal
deriving DecidableEq, Repr

/-- Observable metric counters (`MetricsCollector`); the by-status and
by-priority gauges are fire-and-forget side channels not modelled here. -/
structure Metrics where
  cacheHits : Nat
  cacheMisses : Nat
  cacheErrors : Nat
  dbErrors : Nat
  validationErrors : Nat
deriving DecidableEq, Repr

def Metrics.zero : Metrics := ⟨0, 0, 0, 0, 0⟩

/-- World state threaded through a service call: the store table, cache,
metrics, the logical clock and the uuid supply. -/
structure World where
  repo : List Task
  cache : Cache
  m : Metrics
  now : Nat
  fresh : Nat
deriving DecidableEq, Repr

def incCacheHits (w : World) : World :=
  { w with m := { w.m with cacheHits := w.m.cacheHits + 1 } }
def incCacheMisses (w : World) : World :=
  { w with m := { w.m with cacheMisses := w.m.cacheMisses + 1 } }
def incCacheErrors (w : World) : World :=
  { w with m := { w.m with cacheErrors := w.m.cacheErrors + 1 } }
def incDbErrors (w : World) : World :=
  { w with m := { w.m with dbErrors := w.m.dbErrors + 1 } }
def incValidationErrors (w : World) : World :=
  { w with m := { w.m with validationErrors := w.m.validationErrors + 1 } }

instance {ε α : Type} [DecidableEq ε] [DecidableEq α] : DecidableEq (Except ε α)
  | .error e, .error f =>
      if h : e = f then .isTrue (by rw [h])
      else .isFalse (fun c => h (by cases c; rfl))
  | .error _, .ok _ => .isFalse (fun c => Except.noConfusion c)
  | .ok _, .error _ => .isFalse (fun c => Except.noConfusion c)
  | .ok a, .ok b =>
      if h : a = b then .isTrue (by rw [h])
      else .isFalse (fun c => h (by cases c; rfl))

/-- The best-effort pattern around every cache write/invalidate: a failure
increments the cache-error counter and is otherwise ignored, a success
installs the new cache state; the surrounding operation continues either
way. -/
def absorb (w : World) (r : Except Unit Cache) : World :=
  match r with
  | .error _ => incCacheErrors w
  | .ok c => { w with cache := c }

/-- The best-effort pattern around a cache read: a failure increments the
cache-error counter and behaves as the default (miss) value. -/
def absorbGet {α : Type} (w : World) (r : Except Unit α) (dflt : α) : α × World :=
  match r with
  | .error _ => (dflt, incCacheErrors w)
  | .ok v => (v, w)

/-- `taskService.CreateTask`: validate; build the model with defaults
`todo`/`medium` overridden by non-empty request fields via the proto
conversions; store; best-effort invalidate the owner's pages and cache the
new row. -/
def svcCreateTask (w : World) (req : CreateTaskRequest) :
    Except SvcError Task × World :=
  match validateCreateTaskRequest req with
  | some msg => (.error (.invalidArgument msg), incValidationErrors w)
  | none =>
      let task : Task :=
        { id := "", userID := req.userID, title := req.title,
          description := req.description,
          status := if req.status = "" then .todo else fromProtoStatus req.status,
          priority := if req.priority = "" then .medium else fromProtoPriority req.priority,
          dueDate := req.dueDate, createdAt := 0, updatedAt := 0 }
      let (created, db) := repoCreate w.repo w.fresh w.now task
      let w := { w with repo := db, fresh := w.fresh + 1 }
      let w := absorb w (cacheInvalidateUserTasks w.cache req.userID)
      let w := absorb w (cacheSetTask w.cache created)
      (.ok created, w)

/-- `taskService.GetTask`: cache first (an error counts a cache error and
falls through to the miss path); on miss read the store, populate the cache
best-effort. -/
def svcGetTask (w : World) (id : String) : Except SvcError Task × World :=
  let (hit, w) := absorbGet w (cacheGetTask w.cache id) none
  match hit with
  | some t => (.ok t, incCacheHits w)
  | none =>
      let w := incCacheMisses w
      match findByID w.repo id with
      | none => (.error .notFound, w)
      | some t =>
          let w := absorb w (cacheSetTask w.cache t)
          (.ok t, w)

/-- `taskService.GetTaskByUser`: like `GetTask`, but a cache hit whose
owner differs from the requester fails immediately with permission-denied,
counting neither a hit nor a miss and never reaching the store; the miss
path reads the store scoped to the owner. -/
def svcGetTaskByUser (w : World) (id userID : String) :
    Except SvcError Task × World :=
  let (hit, w) := absorbGet w (cacheGetTask w.cache id) none
  match hit with
  | some t =>
      if t.userID ≠ userID then (.error .permissionDenied, w)
      else (.ok t, incCacheHits w)
  | none =>
      let w := incCacheMisses w
      match findByIDAndUser w.repo id userID with
      | none => (.error .notFound, w)
      | some t =>
          let w := absorb w (cacheSetTask w.cache t)
          (.ok t, w)

/-- `taskService.UpdateTask`: fetch owner-scoped, overwrite exactly the
fields whose pointer is present, store, then best-effort invalidate the
owner's pages and refresh the single-task entry. -/
def svcUpdateTask (w : World) (req : UpdateTaskRequest) :
    Except SvcError Task × World :=
  match findByIDAndUser w.repo req.id req.userID with
  | none => (.error .notFound, w)
  | some t0 =>
      let t1 : Task :=
        { t0 with
          title := req.title.getD t0.title,
          description := req.description.getD t0.description,
          status := match req.status with
                    | some s => fromProtoStatus s
                    | none => t0.status,
          priority := match req.priority with
                      | some p => fromProtoPriority p
                      | none => t0.priority,
          dueDate := match req.dueDate with
                     | some d => some d
                     | none => t0.dueDate }
      match repoUpdate w.repo w.now t1 with
      | none => (.error .internal, incDbErrors w)
      | some (t2, db) =>
          let w := { w with repo := db }
          let w := absorb w (cacheInvalidateUserTasks w.cache req.userID)
          let w := absorb w (cacheSetTask w.cache t2)
          (.ok t2, w)

/-- `taskService.DeleteTask`: fetch first (to learn the owner), delete from
the store, then best-effort delete the single-task entry and invalidate the
owner's pages. A repository delete error is an internal failure (the
repository's hand-rolled error is not `gorm.ErrRecordNotFound`). -/
def svcDeleteTask (w : World) (id : String) : Except SvcError Unit × World :=
  match findByID w.repo id with
  | none => (.error .notFound, w)
  | some t =>
      match repoDelete w.repo id with
      | none => (.error .internal, incDbErrors w)
      | some db =>
          let w := { w with repo := db }
          let w := absorb w (cacheDeleteTask w.cache id)
          let w := absorb w (cacheInvalidateUserTasks w.cache t.userID)
          (.ok (), w)

/-- `taskService.DeleteTaskByUser`: owner-scoped variant of delete. -/
def svcDeleteTaskByUser (w : World) (id userID : String) :
    Except SvcError Unit × World :=
  match findByIDAndUser w.repo id userID with
  | none => (.error .notFound, w)
  | some _ =>
      match repoDeleteByUser w.repo id userID with
      | none => (.error .internal, incDbErrors w)
      | some db =>
          let w := { w with repo := db }
          let w := absorb w (cacheDeleteTask w.cache id)
          let w := absorb w (cacheInvalidateUserTasks w.cache userID)
          (.ok (), w)

/-- The service's page clamp: `if page < 1 { page = 1 }`. -/
def clampPage (page : Nat) : Nat :=
  if page < 1 then 1 else page

/-- The service's page-size clamp: `if pageSize < 1 { pageSize = 10 }`
then `if pageSize > 100 { pageSize = 100 }`. -/
def clampPageSize (pageSize : Nat) : Nat :=
  let p := if pageSize < 1 then 10 else pageSize
  if p > 100 then 100 else p

/-- `taskService.ListTasks`: clamp, derive the key, try the page cache (a
non-nil cached slice is a hit), otherwise read the store and populate the
cache best-effort. -/
def svcListTasks (w : World) (filter : Option TaskFilter) (page pageSize : Nat) :
    Except SvcError (Option (List Task) × Nat) × World :=
  let page := clampPage page
  let pageSize := clampPageSize pageSize
  let key := generateCacheKey "list" filter page pageSize
  let (res, w) := absorbGet w (cacheGetTasksList w.cache key) (none, 0)
  match res.1 with
  | some cachedTasks => (.ok (some cachedTasks, res.2), incCacheHits w)
  | none =>
      let w := incCacheMisses w
      let (tasks, total) := repoList w.repo filter page pageSize
      let w := absorb w (cacheSetTasksList w.cache key tasks total)
      (.ok (tasks, total), w)

/-- `taskService.ListTasksByUser`: owner-scoped variant using
`generateUserCacheKey` and the owner-scoped repository listing. -/
def svcListTasksByUser (w : World) (userID : String) (filter : Option TaskFilter)
    (page pageSize : Nat) : Except SvcError (Option (List Task) × Nat) × World :=
  let page := clampPage page
  let pageSize := clampPageSize pageSize
  let key := generateUserCacheKey userID "list" filter page pageSize
  let (res, w) := absorbGet w (cacheGetTasksList w.cache key) (none, 0)
  match res.1 with
  | some cachedTasks => (.ok (some cachedTasks, res.2), incCacheHits w)
  | none =>
      let w := incCacheMisses w
      let (tasks, total) := repoListByUser w.repo userID filter page pageSize
      let w := absorb w (cacheSetTasksList w.cache key tasks total)
      (.ok (tasks, total), w)

/-! ## Store-only reference semantics

The claim "cache failures never abort an operation" compares each service
operation against the result it would compute from the store alone. The
functions below are that baseline: the same store path with every cache
interaction removed. -/

/-- Store-only `CreateTask`: validate and create. -/
def storeCreateTask (w : World) (req : CreateTaskRequest) :
    Except SvcError Task × List Task :=
  match validateCreateTaskRequest req with
  | some msg => (.error (.invalidArgument msg), w.repo)
  | none =>
      let task : Task :=
        { id := "", userID := req.userID, title := req.title,
          description := req.description,
          status := if req.status = "" then .todo else fromProtoStatus req.status,
          priority := if req.priority = "" then .medium else fromProtoPriority req.priority,
          dueDate := req.dueDate, createdAt := 0, updatedAt := 0 }
      let (created, db) := repoCreate w.repo w.fresh w.now task
      (.ok created, db)

/-- Store-only `GetTask`. -/
def storeGetTask (db : List Task) (id : String) : Except SvcError Task :=
  match findByID db id with
  | none => .error .notFound
  | some t => .ok t

/-- Store-only `GetTaskByUser`. -/
def storeGetTaskByUser (db : List Task) (id userID : String) : Except SvcError Task :=
  match findByIDAndUser db id userID with
  | none => .error .notFound
  | some t => .ok t

/-- Store-only `UpdateTask`. -/
def storeUpdateTask (w : World) (req : UpdateTaskRequest) :
    Except SvcError Task × List Task :=
  match findByIDAndUser w.repo req.id req.userID with
  | none => (.error .notFound, w.repo)
  | some t0 =>
      let t1 : Task :=
        { t0 with
          title := req.title.getD t0.title,
          description := req.description.getD t0.description,
          status := match req.status with
                    | some s => fromProtoStatus s
                    | none => t0.status,
          priority := match req.priority with
                      | some p => fromProtoPriority p
                      | none => t0.priority,
          dueDate := match req.dueDate with
                     | some d => some d
                     | none => t0.dueDate }
      match repoUpdate w.repo w.now t1 with
      | none => (.error .internal, w.repo)
      | some (t2, db) => (.ok t2, db)

/-- Store-only `DeleteTask`. -/
def storeDeleteTask (db : List Task) (id : String) :
    Except SvcError Unit × List Task :=
  match findByID db id with
  | none => (.error .notFound, db)
  | some _ =>
      match repoDelete db id with
      | none => (.error .internal, db)
      | some db' => (.ok (), db')

/-- Store-only `DeleteTaskByUser`. -/
def storeDeleteTaskByUser (db : List Task) (id userID : String) :
    Except SvcError Unit × List Task :=
  match findByIDAndUser db id userID with
  | none => (.error .notFound, db)
  | some _ =>
      match repoDeleteByUser db id userID with
      | none => (.error .internal, db)
      | some db' => (.ok (), db')

/-- Store-only `ListTasks`. -/
def storeListTasks (db : List Task) (filter : Option TaskFilter)
    (page pageSize : Nat) : Except SvcError (Option (List Task) × Nat) :=
  .ok (repoList db filter (clampPage page) (clampPageSize pageSize))

/-- Store-only `ListTasksByUser`. -/
def storeListTasksByUser (db : List Task) (userID : String)
    (filter : Option TaskFilter) (page pageSize : Nat) :
    Except SvcError (Option (List Task) × Nat) :=
  .ok (repoListByUser db userID filter (clampPage page) (clampPageSize pageSize))

/-! ## Concrete instances used by counterexamples and witnesses -/

/-- The sort-field allow-list named by the specification:
{title, status, priority, due date, created time, updated time}. -/
def allowedSortFields : List String :=
  ["title", "status", "priority", "due_date", "created_at", "updated_at"]

/-- A store row owned by user `u1`. -/
def sampleTask : Task :=
  { id := "t1", userID := "u1", title := "write docs", description := "",
    status := .todo, priority := .medium, dueDate := none,
    createdAt := 1, updatedAt := 1 }

/-- An empty, reachable cache. -/
def emptyCache : Cache := { down := false, entries := [] }

def c4filter : TaskFilter :=
  { status := none, priority := none, userID := none,
    sortBy := "bogus", sortDesc := false }

def c6w : World :=
  { repo := [], cache := emptyCache, m := Metrics.zero, now := 5, fresh := 0 }

/-- Valid create request whose priority is spelled lower-case. -/
def c6req : CreateTaskRequest :=
  { userID := "u1", title := "write docs", description := "",
    status := "", priority := "low", dueDate := none }

def c8w : World :=
  { repo := [sampleTask], cache := emptyCache, m := Metrics.zero, now := 5, fresh := 0 }

/-- Create request with an empty owner. -/
def c8req : CreateTaskRequest :=
  { userID := "", title := "write docs", description := "",
    status := "", priority := "", dueDate := none }

/-- The task created by `c6req` on `c6w`. -/
def c6task : Task :=
  { id := freshId 0, userID := "u1", title := "write docs", description := "",
    status := .todo, priority := .medium, dueDate := none,
    createdAt := 5, updatedAt := 5 }

/-- C6 witness world and request. -/
def c6wit : World :=
  { repo := [], cache := emptyCache, m := Metrics.zero, now := 9, fresh := 3 }

def c6witreq : CreateTaskRequest :=
  { userID := "u2", title := "plan", description := "",
    status := "IN_PROGRESS", priority := "", dueDate := none }

/-- World whose store holds `sampleTask` (owner `u1`) and whose cache is
reachable but empty. -/
def c2w : World :=
  { repo := [sampleTask], cache := emptyCache, m := Metrics.zero, now := 2, fresh := 0 }

/-- World whose cache holds `sampleTask` under its single-entity key. -/
def c2wHit : World :=
  { repo := [], cache := { down := false, entries := [("task:t1", .taskE sampleTask)] },
    m := Metrics.zero, now := 2, fresh := 0 }

/-- World with an empty store and an empty reachable cache. -/
def c10w : World :=
  { repo := [], cache := emptyCache, m := Metrics.zero, now := 1, fresh := 0 }

/-- Initial C1 world: one task of owner `u1` in the store, empty cache. -/
def c1w0 : World :=
  { repo := [sampleTask], cache := emptyCache, m := Metrics.zero, now := 2, fresh := 0 }

/-- World after `ListTasksByUser u1` populated the page cache. -/
def c1w1 : World := (svcListTasksByUser c1w0 "u1" none 1 10).2

def c1req : CreateTaskRequest :=
  { userID := "u1", title := "second task", description := "",
    status := "", priority := "", dueDate := none }

/-- World after the subsequent `CreateTask` for owner `u1`. -/
def c1w2 : World := (svcCreateTask c1w1 c1req).2

/-- The task created in step 2. -/
def c1created : Task :=
  { id := freshId 0, userID := "u1", title := "second task", description := "",
    status := .todo, priority := .medium, dueDate := none,
    createdAt := 2, updatedAt := 2 }

/-- World with a failing cache and one stored task. -/
def c5w : World :=
  { repo := [sampleTask], cache := { down := true, entries := [] },
    m := Metrics.zero, now := 7, fresh := 0 }

def c5create : CreateTaskRequest :=
  { userID := "u1", title := "offline create", description := "",
    status := "", priority := "", dueDate := none }

def c5upd : UpdateTaskRequest :=
  { id := "t1", userID := "u1", title := some "renamed", description := none,
    status := none, priority := none, dueDate := none }

/-! ## Decimal rendering is injective (`fmt %d` / `Nat.repr`) -/

/-- Parse a big-endian decimal digit string back to a number. -/
def parseFrom (a : Nat) (l : List Char) : Nat :=
  l.foldl (fun acc c => acc * 10 + (c.toNat - 48)) a

/-! ## Canonical form of the cache keys

The key-derivation functions concatenate optional segments in a fixed
order. The observable content of each optional filter field is its
normalized value: an absent pointer and a pointer to the empty string
both contribute nothing (`normField`), and a sort request is observable
only when the sort field is non-empty (`sortPairOf`). -/

/-- Normalized optional filter value: `none` for both nil and empty. -/
def normField (o : Option String) : Option String :=
  if optSet o then some (o.getD "") else none

/-- The key segment a normalized filter value contributes (with the
joiner's leading colon). -/
def fieldSeg (tag : String) (o : Option String) : String :=
  match o with
  | none => ""
  | some v => ":" ++ tag ++ ":" ++ v

def statusField (f? : Option TaskFilter) : Option String :=
  match f? with
  | none => none
  | some f => normField f.status

def priorityField (f? : Option TaskFilter) : Option String :=
  match f? with
  | none => none
  | some f => normField f.priority

def userFilterField (f? : Option TaskFilter) : Option String :=
  match f? with
  | none => none
  | some f => normField f.userID

/-- The observable sort request: `none` when the sort field is empty. -/
def sortPairOf (f? : Option TaskFilter) : Option (String × Bool) :=
  match f? with
  | none => none
  | some f => if f.sortBy = "" then none else some (f.sortBy, f.sortDesc)

/-- The key segment a sort request contributes. -/
def sortSeg (o : Option (String × Bool)) : String :=
  match o with
  | none => ""
  | some (b, d) => ":sort:" ++ b ++ ":" ++ dirStr d

/-- The mandatory page/size tail of every key. -/
def tailSeg (p s : Nat) : String :=
  ":page:" ++ Nat.repr p ++ ":size:" ++ Nat.repr s

/-- Descriptors differing only in the requested sort direction, with no
sort field set. -/
def c3fA : TaskFilter :=
  { status := none, priority := none, userID := none, sortBy := "", sortDesc := false }

def c3fB : TaskFilter :=
  { status := none, priority := none, userID := none, sortBy := "", sortDesc := true }

/-- World and request for the C9 witness. -/
def c9w : World :=
  { repo := [sampleTask], cache := emptyCache, m := Metrics.zero, now := 9, fresh := 0 }

def c9req : UpdateTaskRequest :=
  { id := "t1", userID := "u1", title := some "new title", description := none,
    status := some "IN_PROGRESS", priority := none, dueDate := none }

/-! ## Theorems -/

/-! ## Helper lemmas -/

theorem clampPage_eq_max (p : Nat) : clampPage p = max p 1 := by
  unfold clampPage
  rw [Nat.max_def]
  split_ifs <;> omega

theorem clampPageSize_cases (s : Nat) :
    clampPageSize s = if s < 1 then 10 else if s > 100 then 100 else s := by
  simp only [clampPageSize]
  split_ifs <;> omega

theorem clampPageSize_eq (s : Nat) :
    clampPageSize s = if s < 1 then 10 else min s 100 := by
  rw [clampPageSize_cases, Nat.min_def]
  split_ifs <;> omega

theorem clampPage_idem (p : Nat) : clampPage (clampPage p) = clampPage p := by
  unfold clampPage
  split_ifs <;> omega

theorem clampPageSize_idem (s : Nat) :
    clampPageSize (clampPageSize s) = clampPageSize s := by
  simp only [clampPageSize_cases]
  split_ifs <;> omega

theorem validate_some_of_bad (req : CreateTaskRequest)
    (h : req.userID = "" ∨ req.title = "" ∨ 255 < req.title.utf8ByteSize ∨
      (req.status ≠ "" ∧ strUpper req.status ∉ validStatuses) ∨
      (req.priority ≠ "" ∧ strUpper req.priority ∉ validPriorities)) :
    ∃ m, validateCreateTaskRequest req = some m := by
  unfold validateCreateTaskRequest
  split_ifs with h1 h2 h3 h4 h5
  · exact ⟨_, rfl⟩
  · exact ⟨_, rfl⟩
  · exact ⟨_, rfl⟩
  · exact ⟨_, rfl⟩
  · exact ⟨_, rfl⟩
  · rcases h with h | h | h | h | h <;> simp_all

theorem toProto_fromProto_status (s : String) (h : s ∈ validStatuses) :
    toProtoStatus (fromProtoStatus s) = s := by
  simp only [validStatuses, List.mem_cons, List.not_mem_nil, or_false] at h
  rcases h with h | h | h | h <;> rw [h] <;> decide

theorem toProto_fromProto_priority (s : String) (h : s ∈ validPriorities) :
    toProtoPriority (fromProtoPriority s) = s := by
  simp only [validPriorities, List.mem_cons, List.not_mem_nil, or_false] at h
  rcases h with h | h | h | h <;> rw [h] <;> decide

theorem freshId_ne_empty (n : Nat) : freshId n ≠ "" := by
  intro h
  have hl := congrArg String.length h
  rw [freshId, String.length_append] at hl
  have h5 : ("uuid-" : String).length = 5 := by decide
  have h0 : ("" : String).length = 0 := by decide
  omega

theorem absorb_repo (w : World) (r : Except Unit Cache) :
    (absorb w r).repo = w.repo := by
  cases r <;> rfl

theorem findByIDAndUser_userID {db : List Task} {id uid : String} {t : Task}
    (h : findByIDAndUser db id uid = some t) : t.userID = uid := by
  have hp := List.find?_some h
  simp only [Bool.and_eq_true, beq_iff_eq] at hp
  exact hp.2

theorem repoUpdate_eq (db : List Task) (now : Nat) (t : Task)
    (h : db.any (fun x => x.id == t.id) = true) :
    repoUpdate db now t = some ({ t with updatedAt := now },
      db.map (fun x => if x.id == t.id then { t with updatedAt := now } else x)) := by
  simp [repoUpdate, h]

theorem findByID_map_replace (db : List Task) (idv : String) (t2 : Task)
    (hid : t2.id = idv) (hmem : db.any (fun x => x.id == idv) = true) :
    findByID (db.map (fun x => if x.id == idv then t2 else x)) idv = some t2 := by
  induction db with
  | nil => simp at hmem
  | cons x xs ih =>
      simp only [List.any_cons, Bool.or_eq_true] at hmem
      simp only [List.map_cons]
      by_cases hx : x.id = idv
      · rw [if_pos (by simpa using hx)]
        unfold findByID
        rw [List.find?_cons_of_pos _ (by simp [hid])]
      · rw [if_neg (by simpa using hx)]
        unfold findByID
        rw [List.find?_cons_of_neg _ (by simpa using hx)]
        have hm : xs.any (fun y => y.id == idv) = true := by
          rcases hmem with hm | hm
          · exact absurd (by simpa using hm) hx
          · exact hm
        exact ih hm

/-! ## Claim theorems -/

/-- C7. Pagination clamp: the service passes the store `max(page, 1)` and a
page size clamped into `[1, 100]` with default 10 for non-positive values;
concretely page 0 behaves as page 1, page size 150 as 100, page size 0 as
10, and both list operations behave identically on raw and clamped
arguments. -/
theorem c7_pagination_clamp :
    (∀ p, clampPage p = max p 1) ∧
    (∀ s, clampPageSize s = if s < 1 then 10 else min s 100) ∧
    (∀ s, 1 ≤ clampPageSize s ∧ clampPageSize s ≤ 100) ∧
    clampPage 0 = 1 ∧ clampPageSize 150 = 100 ∧ clampPageSize 0 = 10 ∧
    (∀ w f p s, svcListTasks w f p s =
      svcListTasks w f (clampPage p) (clampPageSize s)) ∧
    (∀ w u f p s, svcListTasksByUser w u f p s =
      svcListTasksByUser w u f (clampPage p) (clampPageSize s)) := by
  refine ⟨clampPage_eq_max, clampPageSize_eq, ?_, by decide, by decide, by decide, ?_, ?_⟩
  · intro s
    rw [clampPageSize_cases]
    split_ifs <;> omega
  · intro w f p s
    simp only [svcListTasks, clampPage_idem, clampPageSize_idem]
  · intro w u f p s
    simp only [svcListTasksByUser, clampPage_idem, clampPageSize_idem]

/-- C4 counterexample: the sort field `bogus` is outside the allow-list and
ascending order was requested (`sortDesc = false`); the resulting ORDER BY
clause is `created_at ASC`, not the created-time *descending* order the
claim requires regardless of direction. -/
theorem c4_counterexample :
    applySorting (some c4filter) = "created_at ASC" ∧
    ("created_at ASC" : String) ≠ "created_at DESC" := by
  constructor
  · decide
  · decide

/-- C4 (amended): an absent sort specification (nil filter or empty sort
field) yields created-time descending; an unrecognized sort field falls
back to the created-time column while keeping the requested direction
(ascending unless descending was requested); an allow-listed field is
sorted on its own column, ascending unless descending was requested. -/
theorem c4_sort_allowlist_amended :
    applySorting none = "created_at DESC" ∧
    (∀ f : TaskFilter, f.sortBy = "" → applySorting (some f) = "created_at DESC") ∧
    (∀ f : TaskFilter, f.sortBy ≠ "" → strLower f.sortBy ∉ allowedSortFields →
      applySorting (some f) = "created_at " ++ (if f.sortDesc then "DESC" else "ASC")) ∧
    (∀ f : TaskFilter, strLower f.sortBy ∈ allowedSortFields →
      applySorting (some f) =
        mapSortField f.sortBy ++ " " ++ (if f.sortDesc then "DESC" else "ASC") ∧
      mapSortField f.sortBy = strLower f.sortBy) := by
  refine ⟨rfl, ?_, ?_, ?_⟩
  · intro f h
    simp [applySorting, h]
  · intro f hne hmem
    simp only [allowedSortFields, List.mem_cons, List.not_mem_nil, or_false] at hmem
    push_neg at hmem
    obtain ⟨n1, n2, n3, n4, n5, n6⟩ := hmem
    simp [applySorting, hne, mapSortField, n1, n2, n3, n4, n5, n6]
  · intro f hmem
    simp only [allowedSortFields, List.mem_cons, List.not_mem_nil, or_false] at hmem
    have hne : f.sortBy ≠ "" := by
      intro e
      rw [e] at hmem
      revert hmem
      decide
    rcases hmem with h | h | h | h | h | h <;>
      refine ⟨by simp [applySorting, hne], ?_⟩ <;>
      · simp only [mapSortField, h]
        decide

/-- C8. Validation fail-fast: a create request with empty owner, empty
title, a title longer than 255 bytes, or a non-empty status/priority
outside the enumerated values (compared upper-cased, as the validator
does) is rejected with the bad-input signal; the store and the cache are
untouched, and only the validation-error counter moves. -/
theorem c8_validation_fail_fast (w : World) (req : CreateTaskRequest)
    (h : req.userID = "" ∨ req.title = "" ∨ 255 < req.title.utf8ByteSize ∨
      (req.status ≠ "" ∧ strUpper req.status ∉ validStatuses) ∨
      (req.priority ≠ "" ∧ strUpper req.priority ∉ validPriorities)) :
    (∃ msg, svcCreateTask w req =
      (.error (.invalidArgument msg), incValidationErrors w)) ∧
    (svcCreateTask w req).2.repo = w.repo ∧
    (svcCreateTask w req).2.cache = w.cache := by
  obtain ⟨m, hm⟩ := validate_some_of_bad req h
  refine ⟨⟨m, ?_⟩, ?_, ?_⟩ <;> simp [svcCreateTask, hm, incValidationErrors]

/-- C8 witness: the empty-owner request on a concrete world. -/
theorem c8_validation_fail_fast_witness :
    (∃ msg, svcCreateTask c8w c8req =
      (.error (.invalidArgument msg), incValidationErrors c8w)) ∧
    (svcCreateTask c8w c8req).2.repo = c8w.repo ∧
    (svcCreateTask c8w c8req).2.cache = c8w.cache :=
  c8_validation_fail_fast c8w c8req (Or.inl (by decide))

/-- C6 counterexample: the request asks for priority `low`, which passes
validation (the validator upper-cases before checking), yet the created
task's priority is the default `medium`, not `low` — the returned priority
does not match the non-omitted request field. -/
theorem c6_counterexample :
    validateCreateTaskRequest c6req = none ∧
    c6req.priority ≠ "" ∧
    (svcCreateTask c6w c6req).1 = .ok c6task ∧
    c6task.priority = .medium ∧
    c6task.priority ≠ .low ∧
    toProtoPriority c6task.priority ≠ c6req.priority := by
  refine ⟨by decide, by decide, by rfl, by decide, by decide, by decide⟩

/-- C6 (amended): a create request that passes validation yields a task
with a non-empty identifier whose owner and title match the request;
status and priority are the defaults `todo`/`medium` when the request
field is omitted, and match the request when it is spelled in the
canonical upper-case enum form (a validation-passing but non-canonical
spelling falls back to the default instead). -/
theorem c6_create_postcondition_amended (w : World) (req : CreateTaskRequest)
    (h : validateCreateTaskRequest req = none) :
    ∃ t, (svcCreateTask w req).1 = .ok t ∧
      t.id ≠ "" ∧ t.userID = req.userID ∧ t.title = req.title ∧
      (req.status = "" → t.status = .todo) ∧
      (req.status ∈ validStatuses → toProtoStatus t.status = req.status) ∧
      (req.priority = "" → t.priority = .medium) ∧
      (req.priority ∈ validPriorities → toProtoPriority t.priority = req.priority) := by
  refine ⟨{ id := freshId w.fresh, userID := req.userID, title := req.title,
            description := req.description,
            status := if req.status = "" then .todo else fromProtoStatus req.status,
            priority := if req.priority = "" then .medium else fromProtoPriority req.priority,
            dueDate := req.dueDate, createdAt := w.now, updatedAt := w.now },
         ?_, freshId_ne_empty w.fresh, rfl, rfl, ?_, ?_, ?_, ?_⟩
  · simp [svcCreateTask, h, repoCreate]
  · intro he
    simp [he]
  · intro hmem
    have hne : req.status ≠ "" := by
      intro e
      rw [e] at hmem
      revert hmem
      decide
    show toProtoStatus (if req.status = "" then .todo else fromProtoStatus req.status) =
      req.status
    rw [if_neg hne]
    exact toProto_fromProto_status _ hmem
  · intro he
    simp [he]
  · intro hmem
    have hne : req.priority ≠ "" := by
      intro e
      rw [e] at hmem
      revert hmem
      decide
    show toProtoPriority (if req.priority = "" then .medium else fromProtoPriority req.priority) =
      req.priority
    rw [if_neg hne]
    exact toProto_fromProto_priority _ hmem

/-- C6 witness: the amended postcondition at a concrete request. -/
theorem c6_create_postcondition_amended_witness :
    ∃ t, (svcCreateTask c6wit c6witreq).1 = .ok t ∧
      t.id ≠ "" ∧ t.userID = c6witreq.userID ∧ t.title = c6witreq.title ∧
      (c6witreq.status = "" → t.status = .todo) ∧
      (c6witreq.status ∈ validStatuses → toProtoStatus t.status = c6witreq.status) ∧
      (c6witreq.priority = "" → t.priority = .medium) ∧
      (c6witreq.priority ∈ validPriorities →
        toProtoPriority t.priority = c6witreq.priority) :=
  c6_create_postcondition_amended c6wit c6witreq (by decide)

/-- C2 counterexample: task `t1` is owned by `u1` and lives only in the
store (the cache is reachable and empty); the owner-scoped get by `u2`
returns not-found, not the permission-denied signal the claim requires for
the store-only case. -/
theorem c2_counterexample :
    sampleTask.userID = "u1" ∧ ("u2" : String) ≠ "u1" ∧
    findByID c2w.repo "t1" = some sampleTask ∧
    cacheLookup c2w.cache ("task:" ++ "t1") = none ∧
    (svcGetTaskByUser c2w "t1" "u2").1 = .error .notFound ∧
    (svcGetTaskByUser c2w "t1" "u2").1 ≠ .error .permissionDenied := by
  decide

/-- C2 (amended): owner isolation as the code implements it. A cache hit
whose owner differs from the requester fails with permission-denied,
leaving the world unchanged (no hit/miss counted, no store access); when
the entity is absent from the cache and present only in the store under a
different owner, the owner-scoped lookup misses (owner mismatch is
indistinguishable from a missing row) and the call fails with not-found;
in every case a returned task belongs to the requester. -/
theorem c2_owner_isolation_amended :
    (∀ (w : World) (id userID : String) (t : Task),
      w.cache.down = false →
      cacheLookup w.cache ("task:" ++ id) = some (.taskE t) →
      t.userID ≠ userID →
      svcGetTaskByUser w id userID = (.error .permissionDenied, w)) ∧
    (∀ (w : World) (id userID : String) (e : Task),
      w.cache.down = false →
      cacheLookup w.cache ("task:" ++ id) = none →
      findByID w.repo id = some e →
      e.userID ≠ userID →
      (∀ x ∈ w.repo, x.id = id → x.userID = e.userID) →
      (svcGetTaskByUser w id userID).1 = .error .notFound) ∧
    (∀ (w : World) (id userID : String) (t : Task),
      (svcGetTaskByUser w id userID).1 = .ok t → t.userID = userID) := by
  refine ⟨?_, ?_, ?_⟩
  · intro w id userID t hdown hlook hne
    simp [svcGetTaskByUser, cacheGetTask, hdown, hlook, absorbGet, hne]
  · intro w id userID e hdown hlook hfound hne hu
    have hfind : findByIDAndUser w.repo id userID = none := by
      apply List.find?_eq_none.mpr
      intro x hx
      simp only [Bool.and_eq_true, beq_iff_eq, not_and]
      intro h1 h2
      exact hne (by rw [← hu x hx h1]; exact h2)
    simp [svcGetTaskByUser, cacheGetTask, hdown, hlook, absorbGet, incCacheMisses, hfind]
  · intro w id userID t h
    unfold svcGetTaskByUser at h
    cases hc : cacheGetTask w.cache id with
    | error e =>
        rw [hc] at h
        simp only [absorbGet, incCacheMisses, incCacheErrors] at h
        cases hf : findByIDAndUser w.repo id userID with
        | none => rw [hf] at h; simp at h
        | some t' =>
            rw [hf] at h
            simp at h
            rw [← h]
            exact findByIDAndUser_userID hf
    | ok r =>
        rw [hc] at h
        simp only [absorbGet, incCacheMisses] at h
        cases r with
        | none =>
            cases hf : findByIDAndUser w.repo id userID with
            | none => rw [hf] at h; simp at h
            | some t' =>
                rw [hf] at h
                simp at h
                rw [← h]
                exact findByIDAndUser_userID hf
        | some t' =>
            by_cases hq : t'.userID = userID
            · simp only [hq, ne_eq, not_true_eq_false, if_neg, ite_false] at h
              simp at h
              rw [← h]
              exact hq
            · simp only [ne_eq, hq, not_false_eq_true, if_pos, ite_true] at h
              simp at h

/-- C2 witness: the three amended clauses at concrete worlds — a wrong
owner against a cached entry, a wrong owner against a store-only entry,
and a matching owner actually receiving the task. -/
theorem c2_owner_isolation_amended_witness :
    svcGetTaskByUser c2wHit "t1" "u2" = (.error .permissionDenied, c2wHit) ∧
    (svcGetTaskByUser c2w "t1" "u2").1 = .error .notFound ∧
    sampleTask.userID = "u1" :=
  ⟨c2_owner_isolation_amended.1 c2wHit "t1" "u2" sampleTask (by decide) (by decide)
      (by decide),
   c2_owner_isolation_amended.2.1 c2w "t1" "u2" sampleTask (by decide) (by decide)
      (by decide) (by decide) (by decide),
   c2_owner_isolation_amended.2.2 c2wHit "t1" "u1" sampleTask (by decide)⟩

/-- C9. Partial-update frame: a successful owner-scoped update changes
exactly the fields whose pointer is present in the request; the task's
identifier, owner, creation time and every absent field keep their prior
values, and the store after the call is the prior store with only that one
row replaced. -/
theorem c9_partial_update_frame (w : World) (req : UpdateTaskRequest) (t0 : Task)
    (hfind : findByIDAndUser w.repo req.id req.userID = some t0) :
    ∃ t2, (svcUpdateTask w req).1 = .ok t2 ∧
      t2.id = t0.id ∧ t2.userID = t0.userID ∧ t2.createdAt = t0.createdAt ∧
      (req.title = none → t2.title = t0.title) ∧
      (∀ v, req.title = some v → t2.title = v) ∧
      (req.description = none → t2.description = t0.description) ∧
      (∀ v, req.description = some v → t2.description = v) ∧
      (req.status = none → t2.status = t0.status) ∧
      (∀ v, req.status = some v → t2.status = fromProtoStatus v) ∧
      (req.priority = none → t2.priority = t0.priority) ∧
      (∀ v, req.priority = some v → t2.priority = fromProtoPriority v) ∧
      (req.dueDate = none → t2.dueDate = t0.dueDate) ∧
      (∀ v, req.dueDate = some v → t2.dueDate = some v) ∧
      (svcUpdateTask w req).2.repo =
        w.repo.map (fun x => if x.id == t0.id then t2 else x) ∧
      findByID (svcUpdateTask w req).2.repo t0.id = some t2 := by
  have hmem := List.mem_of_find?_eq_some hfind
  have hany : w.repo.any (fun x => x.id == t0.id) = true :=
    List.any_eq_true.mpr ⟨t0, hmem, by simp⟩
  refine ⟨{ t0 with
      title := req.title.getD t0.title,
      description := req.description.getD t0.description,
      status := match req.status with
                | some s => fromProtoStatus s
                | none => t0.status,
      priority := match req.priority with
                  | some p => fromProtoPriority p
                  | none => t0.priority,
      dueDate := match req.dueDate with
                 | some d => some d
                 | none => t0.dueDate,
      updatedAt := w.now }, ?_, rfl, rfl, rfl, ?_, ?_, ?_, ?_, ?_, ?_, ?_, ?_, ?_, ?_, ?_, ?_⟩
  · simp only [svcUpdateTask, hfind, repoUpdate, hany, if_true]
  · intro h; simp [h]
  · intro v h; simp [h]
  · intro h; simp [h]
  · intro v h; simp [h]
  · intro h; simp [h]
  · intro v h; simp [h]
  · intro h; simp [h]
  · intro v h; simp [h]
  · intro h; simp [h]
  · intro v h; simp [h]
  · simp only [svcUpdateTask, hfind, repoUpdate, hany, if_true, absorb_repo]
  · have hrepo : (svcUpdateTask w req).2.repo =
        w.repo.map (fun x => if x.id == t0.id then { t0 with
          title := req.title.getD t0.title,
          description := req.description.getD t0.description,
          status := match req.status with
                    | some s => fromProtoStatus s
                    | none => t0.status,
          priority := match req.priority with
                      | some p => fromProtoPriority p
                      | none => t0.priority,
          dueDate := match req.dueDate with
                     | some d => some d
                     | none => t0.dueDate,
          updatedAt := w.now } else x) := by
      simp only [svcUpdateTask, hfind, repoUpdate, hany, if_true, absorb_repo]
    rw [hrepo]
    exact findByID_map_replace _ _ _ rfl hany

theorem find?_filter_store (l : List (String × CacheEntry)) (k : String) (v : CacheEntry) :
    List.find? (fun e => e.1 == k) (l.filter (fun e => !(e.1 == k)) ++ [(k, v)]) =
      some (k, v) := by
  induction l with
  | nil => simp
  | cons x xs ih =>
      by_cases hx : (x.1 == k) = true
      · simp [List.filter_cons, hx, ih]
      · have hxf : (x.1 == k) = false := by simpa using hx
        simp only [List.filter_cons, hxf, Bool.not_false, if_pos, List.cons_append]
        rw [List.find?_cons_of_neg _ (by simp [hxf])]
        exact ih

theorem cacheLookup_store (c : Cache) (k : String) (v : CacheEntry) :
    cacheLookup (cacheStore c k v) k = some v := by
  unfold cacheLookup cacheStore
  simp only [find?_filter_store]
  rfl

theorem cacheStore_down (c : Cache) (k : String) (v : CacheEntry) :
    (cacheStore c k v).down = c.down := rfl

/-- Execution of `ListTasks` on a miss: reads the store and populates the
page cache under the derived key. -/
theorem svcListTasks_miss (w : World) (f : Option TaskFilter) (p s : Nat)
    (hdown : w.cache.down = false)
    (hlook : cacheLookup w.cache
      (generateCacheKey "list" f (clampPage p) (clampPageSize s)) = none) :
    svcListTasks w f p s =
      (.ok (repoList w.repo f (clampPage p) (clampPageSize s)),
       { w with
         m := { w.m with cacheMisses := w.m.cacheMisses + 1 },
         cache := cacheStore w.cache
           (generateCacheKey "list" f (clampPage p) (clampPageSize s))
           (.pageE (marshalTasks (repoList w.repo f (clampPage p) (clampPageSize s)).1)
                   (repoList w.repo f (clampPage p) (clampPageSize s)).2) }) := by
  simp [svcListTasks, cacheGetTasksList, hdown, hlook, absorbGet, incCacheMisses,
    cacheSetTasksList, absorb, repoList]

/-- Execution of `ListTasks` on a page-cache hit with a non-nil slice. -/
theorem svcListTasks_hit (w : World) (f : Option TaskFilter) (p s : Nat)
    (l : List Task) (total : Nat) (hdown : w.cache.down = false)
    (hlook : cacheLookup w.cache
      (generateCacheKey "list" f (clampPage p) (clampPageSize s)) =
      some (.pageE (.arr l) total)) :
    svcListTasks w f p s = (.ok (some l, total), incCacheHits w) := by
  simp [svcListTasks, cacheGetTasksList, hdown, hlook, absorbGet, unmarshalTasks]

/-- Execution of `ListTasksByUser` on a miss. -/
theorem svcListTasksByUser_miss (w : World) (uid : String) (f : Option TaskFilter)
    (p s : Nat) (hdown : w.cache.down = false)
    (hlook : cacheLookup w.cache
      (generateUserCacheKey uid "list" f (clampPage p) (clampPageSize s)) = none) :
    svcListTasksByUser w uid f p s =
      (.ok (repoListByUser w.repo uid f (clampPage p) (clampPageSize s)),
       { w with
         m := { w.m with cacheMisses := w.m.cacheMisses + 1 },
         cache := cacheStore w.cache
           (generateUserCacheKey uid "list" f (clampPage p) (clampPageSize s))
           (.pageE (marshalTasks
               (repoListByUser w.repo uid f (clampPage p) (clampPageSize s)).1)
             (repoListByUser w.repo uid f (clampPage p) (clampPageSize s)).2) }) := by
  simp [svcListTasksByUser, cacheGetTasksList, hdown, hlook, absorbGet, incCacheMisses,
    cacheSetTasksList, absorb, repoListByUser]

/-- Execution of `ListTasksByUser` on a page-cache hit with a non-nil slice. -/
theorem svcListTasksByUser_hit (w : World) (uid : String) (f : Option TaskFilter)
    (p s : Nat) (l : List Task) (total : Nat) (hdown : w.cache.down = false)
    (hlook : cacheLookup w.cache
      (generateUserCacheKey uid "list" f (clampPage p) (clampPageSize s)) =
      some (.pageE (.arr l) total)) :
    svcListTasksByUser w uid f p s = (.ok (some l, total), incCacheHits w) := by
  simp [svcListTasksByUser, cacheGetTasksList, hdown, hlook, absorbGet, unmarshalTasks]

/-- C10 counterexample: on an empty store, the zero-task page is an empty
*non-nil* slice (the repository's scan initializes the slice), it
serializes to an empty array rather than to nil, and the repeated
identical list call is served from the page cache (a hit, no second store
read) — contradicting the claim that zero-result pages round-trip to nil
and are recomputed on every call. -/
theorem c10_counterexample :
    (repoList ([] : List Task) none 1 10).1 = some [] ∧
    marshalTasks (some ([] : List Task)) = .arr [] ∧
    unmarshalTasks (.arr []) = some ([] : List Task) ∧
    (svcListTasks c10w none 1 10).1 = .ok (some [], 0) ∧
    (svcListTasks (svcListTasks c10w none 1 10).2 none 1 10).1 = .ok (some [], 0) ∧
    (svcListTasks (svcListTasks c10w none 1 10).2 none 1 10).2.m.cacheHits =
      (svcListTasks c10w none 1 10).2.m.cacheHits + 1 ∧
    (svcListTasks (svcListTasks c10w none 1 10).2 none 1 10).2.m.cacheMisses =
      (svcListTasks c10w none 1 10).2.m.cacheMisses := by
  decide

/-- C10 (amended): serialization of a cached page preserves the task
slice's nil-ness exactly; the store's list result is always a non-nil
slice (empty included); hence any list call that populated the page cache
— zero-result pages included — makes the immediately repeated identical
call a cache hit (same result, hit counter up, no new miss), rather than
a forced recomputation. -/
theorem c10_empty_page_cached_amended :
    (∀ o : Option (List Task), unmarshalTasks (marshalTasks o) = o) ∧
    (∀ (db : List Task) (f : Option TaskFilter) (p s : Nat),
      (repoList db f p s).1.isSome) ∧
    (∀ (db : List Task) (uid : String) (f : Option TaskFilter) (p s : Nat),
      (repoListByUser db uid f p s).1.isSome) ∧
    (∀ (w : World) (f : Option TaskFilter) (p s : Nat),
      w.cache.down = false →
      cacheLookup w.cache
        (generateCacheKey "list" f (clampPage p) (clampPageSize s)) = none →
      (svcListTasks (svcListTasks w f p s).2 f p s).1 = (svcListTasks w f p s).1 ∧
      (svcListTasks (svcListTasks w f p s).2 f p s).2.m.cacheHits =
        (svcListTasks w f p s).2.m.cacheHits + 1 ∧
      (svcListTasks (svcListTasks w f p s).2 f p s).2.m.cacheMisses =
        (svcListTasks w f p s).2.m.cacheMisses) ∧
    (∀ (w : World) (uid : String) (f : Option TaskFilter) (p s : Nat),
      w.cache.down = false →
      cacheLookup w.cache
        (generateUserCacheKey uid "list" f (clampPage p) (clampPageSize s)) = none →
      (svcListTasksByUser (svcListTasksByUser w uid f p s).2 uid f p s).1 =
        (svcListTasksByUser w uid f p s).1 ∧
      (svcListTasksByUser (svcListTasksByUser w uid f p s).2 uid f p s).2.m.cacheHits =
        (svcListTasksByUser w uid f p s).2.m.cacheHits + 1 ∧
      (svcListTasksByUser (svcListTasksByUser w uid f p s).2 uid f p s).2.m.cacheMisses =
        (svcListTasksByUser w uid f p s).2.m.cacheMisses) := by
  refine ⟨fun o => by cases o <;> rfl, fun db f p s => by simp [repoList],
    fun db uid f p s => by simp [repoListByUser], ?_, ?_⟩
  · intro w f p s hdown hlook
    rw [svcListTasks_miss w f p s hdown hlook]
    rw [svcListTasks_hit _ f p s _ (repoList w.repo f (clampPage p) (clampPageSize s)).2
      (by simpa [cacheStore_down] using hdown)
      (by rw [cacheLookup_store]; rfl)]
    refine ⟨rfl, rfl, rfl⟩
  · intro w uid f p s hdown hlook
    rw [svcListTasksByUser_miss w uid f p s hdown hlook]
    rw [svcListTasksByUser_hit _ uid f p s _
      (repoListByUser w.repo uid f (clampPage p) (clampPageSize s)).2
      (by simpa [cacheStore_down] using hdown)
      (by rw [cacheLookup_store]; rfl)]
    refine ⟨rfl, rfl, rfl⟩

/-- C10 witness: the amended statement at a concrete empty-store world. -/
theorem c10_empty_page_cached_amended_witness :
    unmarshalTasks (marshalTasks (some ([] : List Task))) = some [] ∧
    (repoList ([] : List Task) none 1 10).1.isSome ∧
    (repoListByUser ([] : List Task) "u1" none 1 10).1.isSome ∧
    ((svcListTasks (svcListTasks c10w none 1 10).2 none 1 10).1 =
      (svcListTasks c10w none 1 10).1 ∧
     (svcListTasks (svcListTasks c10w none 1 10).2 none 1 10).2.m.cacheHits =
      (svcListTasks c10w none 1 10).2.m.cacheHits + 1 ∧
     (svcListTasks (svcListTasks c10w none 1 10).2 none 1 10).2.m.cacheMisses =
      (svcListTasks c10w none 1 10).2.m.cacheMisses) ∧
    ((svcListTasksByUser (svcListTasksByUser c10w "u1" none 1 10).2 "u1" none 1 10).1 =
      (svcListTasksByUser c10w "u1" none 1 10).1 ∧
     (svcListTasksByUser (svcListTasksByUser c10w "u1" none 1 10).2 "u1" none 1 10).2.m.cacheHits =
      (svcListTasksByUser c10w "u1" none 1 10).2.m.cacheHits + 1 ∧
     (svcListTasksByUser (svcListTasksByUser c10w "u1" none 1 10).2 "u1" none 1 10).2.m.cacheMisses =
      (svcListTasksByUser c10w "u1" none 1 10).2.m.cacheMisses) :=
  ⟨c10_empty_page_cached_amended.1 (some []),
   c10_empty_page_cached_amended.2.1 [] none 1 10,
   c10_empty_page_cached_amended.2.2.1 [] "u1" none 1 10,
   c10_empty_page_cached_amended.2.2.2.1 c10w none 1 10 (by decide) (by decide),
   c10_empty_page_cached_amended.2.2.2.2 c10w "u1" none 1 10 (by decide) (by decide)⟩

theorem appendFilterParts_append (L : List String) (f : Option TaskFilter) (b : Bool) :
    appendFilterParts L f b = L ++ appendFilterParts [] f b := by
  cases f with
  | none => simp [appendFilterParts]
  | some f =>
      simp only [appendFilterParts]
      split_ifs <;> simp

theorem joinColon_cons_cons (a b : String) (t : List String) :
    joinColon (a :: b :: t) = a ++ ":" ++ joinColon (b :: t) := rfl

theorem isPrefixOf_false_of_head_ne (a b : Char) (as bs : List Char) (h : a ≠ b) :
    List.isPrefixOf (a :: as) (b :: bs) = false := by
  simp [List.isPrefixOf, h]

/-- The generated owner-scoped list keys start with `list:`, so the
invalidation pattern `tasks:user:<uid>:*` never matches any of them —
for every owner, filter and page the sweep removes nothing. -/
theorem invalidation_pattern_never_matches (uid : String) (f : Option TaskFilter)
    (p s : Nat) :
    matchesUserPattern uid (generateUserCacheKey uid "list" f p s) = false := by
  simp only [generateUserCacheKey]
  rw [appendFilterParts_append]
  have hparts : (["list", "user:" ++ uid] ++ appendFilterParts [] f false) ++
      ["page:" ++ Nat.repr p, "size:" ++ Nat.repr s] =
      "list" :: ("user:" ++ uid) ::
        (appendFilterParts [] f false ++ ["page:" ++ Nat.repr p, "size:" ++ Nat.repr s]) := by
    simp
  rw [hparts, joinColon_cons_cons]
  unfold matchesUserPattern
  simp only [String.data_append]
  simp only [List.cons_append, List.append_assoc]
  exact isPrefixOf_false_of_head_ne _ _ _ _ (by decide)

/-- C1: write-then-list consistency is violated. The invalidation sweep
uses pattern `tasks:user:<uid>:*` while the page-cache keys begin with
`list:`, so the sweep never removes a page entry; concretely, after
`ListTasksByUser u1` caches the one-task page and `CreateTask` stores a
second task for `u1` (with the cache reachable throughout), the very next
`ListTasksByUser u1` returns the pre-write page from the cache (a cache
hit), not the two-task page the store-only read produces. -/
theorem c1_stale_list_after_create :
    (∀ (uid : String) (f : Option TaskFilter) (p s : Nat),
      matchesUserPattern uid (generateUserCacheKey uid "list" f p s) = false) ∧
    (svcListTasksByUser c1w0 "u1" none 1 10).1 = .ok (some [sampleTask], 1) ∧
    (svcCreateTask c1w1 c1req).1 = .ok c1created ∧
    c1w2.repo = [sampleTask, c1created] ∧
    cacheLookup c1w2.cache (generateUserCacheKey "u1" "list" none 1 10) =
      some (.pageE (.arr [sampleTask]) 1) ∧
    (svcListTasksByUser c1w2 "u1" none 1 10).1 = .ok (some [sampleTask], 1) ∧
    (svcListTasksByUser c1w2 "u1" none 1 10).2.m.cacheHits = c1w2.m.cacheHits + 1 ∧
    storeListTasksByUser c1w2.repo "u1" none 1 10 =
      .ok (some [c1created, sampleTask], 2) ∧
    (.ok (some [c1created, sampleTask], 2) : Except SvcError (Option (List Task) × Nat)) ≠
      .ok (some [sampleTask], 1) := by
  refine ⟨invalidation_pattern_never_matches, ?_⟩
  decide

/-- C5. Cache failures never abort an operation: with every cache call
failing, each service operation returns the same successful result the
store-only reference semantics computes, leaves the store in the same
state, and increments the cache-error counter once per attempted cache
operation (two per operation along these success paths). -/
theorem c5_cache_failures_absorbed :
    (∀ (w : World) (req : CreateTaskRequest), w.cache.down = true →
      validateCreateTaskRequest req = none →
      (svcCreateTask w req).1 = (storeCreateTask w req).1 ∧
      (svcCreateTask w req).2.repo = (storeCreateTask w req).2 ∧
      (∃ t, (svcCreateTask w req).1 = .ok t) ∧
      (svcCreateTask w req).2.m.cacheErrors = w.m.cacheErrors + 2) ∧
    (∀ (w : World) (id : String) (t : Task), w.cache.down = true →
      findByID w.repo id = some t →
      (svcGetTask w id).1 = .ok t ∧ storeGetTask w.repo id = .ok t ∧
      (svcGetTask w id).2.repo = w.repo ∧
      (svcGetTask w id).2.m.cacheErrors = w.m.cacheErrors + 2) ∧
    (∀ (w : World) (id uid : String) (t : Task), w.cache.down = true →
      findByIDAndUser w.repo id uid = some t →
      (svcGetTaskByUser w id uid).1 = .ok t ∧
      storeGetTaskByUser w.repo id uid = .ok t ∧
      (svcGetTaskByUser w id uid).2.repo = w.repo ∧
      (svcGetTaskByUser w id uid).2.m.cacheErrors = w.m.cacheErrors + 2) ∧
    (∀ (w : World) (req : UpdateTaskRequest) (t0 : Task), w.cache.down = true →
      findByIDAndUser w.repo req.id req.userID = some t0 →
      (svcUpdateTask w req).1 = (storeUpdateTask w req).1 ∧
      (svcUpdateTask w req).2.repo = (storeUpdateTask w req).2 ∧
      (∃ t, (svcUpdateTask w req).1 = .ok t) ∧
      (svcUpdateTask w req).2.m.cacheErrors = w.m.cacheErrors + 2) ∧
    (∀ (w : World) (id : String) (t : Task), w.cache.down = true →
      findByID w.repo id = some t →
      (svcDeleteTask w id).1 = .ok () ∧ (storeDeleteTask w.repo id).1 = .ok () ∧
      (svcDeleteTask w id).2.repo = (storeDeleteTask w.repo id).2 ∧
      (svcDeleteTask w id).2.m.cacheErrors = w.m.cacheErrors + 2) ∧
    (∀ (w : World) (id uid : String) (t : Task), w.cache.down = true →
      findByIDAndUser w.repo id uid = some t →
      (svcDeleteTaskByUser w id uid).1 = .ok () ∧
      (storeDeleteTaskByUser w.repo id uid).1 = .ok () ∧
      (svcDeleteTaskByUser w id uid).2.repo = (storeDeleteTaskByUser w.repo id uid).2 ∧
      (svcDeleteTaskByUser w id uid).2.m.cacheErrors = w.m.cacheErrors + 2) ∧
    (∀ (w : World) (f : Option TaskFilter) (p s : Nat), w.cache.down = true →
      (svcListTasks w f p s).1 = storeListTasks w.repo f p s ∧
      (∃ r, (svcListTasks w f p s).1 = .ok r) ∧
      (svcListTasks w f p s).2.repo = w.repo ∧
      (svcListTasks w f p s).2.m.cacheErrors = w.m.cacheErrors + 2) ∧
    (∀ (w : World) (uid : String) (f : Option TaskFilter) (p s : Nat),
      w.cache.down = true →
      (svcListTasksByUser w uid f p s).1 = storeListTasksByUser w.repo uid f p s ∧
      (∃ r, (svcListTasksByUser w uid f p s).1 = .ok r) ∧
      (svcListTasksByUser w uid f p s).2.repo = w.repo ∧
      (svcListTasksByUser w uid f p s).2.m.cacheErrors = w.m.cacheErrors + 2) := by
  refine ⟨?_, ?_, ?_, ?_, ?_, ?_, ?_, ?_⟩
  · intro w req hdown hval
    refine ⟨?_, ?_, ?_, ?_⟩ <;>
      simp [svcCreateTask, storeCreateTask, hval, repoCreate,
        cacheInvalidateUserTasks, cacheSetTask, hdown, absorb, incCacheErrors]
  · intro w id t hdown hfind
    refine ⟨?_, ?_, ?_, ?_⟩ <;>
      simp [svcGetTask, storeGetTask, cacheGetTask, cacheSetTask, hdown,
        absorbGet, absorb, incCacheErrors, incCacheMisses, hfind]
  · intro w id uid t hdown hfind
    refine ⟨?_, ?_, ?_, ?_⟩ <;>
      simp [svcGetTaskByUser, storeGetTaskByUser, cacheGetTask, cacheSetTask, hdown,
        absorbGet, absorb, incCacheErrors, incCacheMisses, hfind]
  · intro w req t0 hdown hfind
    have hany : w.repo.any (fun x => x.id == t0.id) = true :=
      List.any_eq_true.mpr ⟨t0, List.mem_of_find?_eq_some hfind, by simp⟩
    refine ⟨?_, ?_, ?_, ?_⟩ <;>
      simp [svcUpdateTask, storeUpdateTask, hfind, repoUpdate, hany, if_true,
        cacheInvalidateUserTasks, cacheSetTask, hdown, absorb,
        incCacheErrors]
  · intro w id t hdown hfind
    have hfind' : w.repo.find? (fun x => x.id == id) = some t := hfind
    have hpred := List.find?_some hfind'
    have hmem : t ∈ w.repo := List.mem_of_find?_eq_some hfind'
    have hany : w.repo.any (fun x => x.id == id) = true :=
      List.any_eq_true.mpr ⟨t, hmem, hpred⟩
    refine ⟨?_, ?_, ?_, ?_⟩ <;>
      simp [svcDeleteTask, storeDeleteTask, hfind, repoDelete, hany, if_true,
        cacheDeleteTask, cacheInvalidateUserTasks, hdown, absorb, incCacheErrors]
  · intro w id uid t hdown hfind
    have hfind' : w.repo.find? (fun x => x.id == id && x.userID == uid) = some t := hfind
    have hpred := List.find?_some hfind'
    have hmem : t ∈ w.repo := List.mem_of_find?_eq_some hfind'
    have hany : w.repo.any (fun x => x.id == id && x.userID == uid) = true :=
      List.any_eq_true.mpr ⟨t, hmem, hpred⟩
    refine ⟨?_, ?_, ?_, ?_⟩ <;>
      simp [svcDeleteTaskByUser, storeDeleteTaskByUser, hfind, repoDeleteByUser,
        hany, if_true, cacheDeleteTask, cacheInvalidateUserTasks, hdown, absorb,
        incCacheErrors]
  · intro w f p s hdown
    refine ⟨?_, ?_, ?_, ?_⟩ <;>
      simp [svcListTasks, storeListTasks, cacheGetTasksList, cacheSetTasksList,
        hdown, absorbGet, absorb, incCacheErrors, incCacheMisses, repoList]
  · intro w uid f p s hdown
    refine ⟨?_, ?_, ?_, ?_⟩ <;>
      simp [svcListTasksByUser, storeListTasksByUser, cacheGetTasksList,
        cacheSetTasksList, hdown, absorbGet, absorb, incCacheErrors,
        incCacheMisses, repoListByUser]

/-- C5 witness: every operation at a concrete failing-cache world. -/
theorem c5_cache_failures_absorbed_witness :
    ((svcCreateTask c5w c5create).1 = (storeCreateTask c5w c5create).1 ∧
     (svcCreateTask c5w c5create).2.repo = (storeCreateTask c5w c5create).2 ∧
     (∃ t, (svcCreateTask c5w c5create).1 = .ok t) ∧
     (svcCreateTask c5w c5create).2.m.cacheErrors = c5w.m.cacheErrors + 2) ∧
    ((svcGetTask c5w "t1").1 = .ok sampleTask ∧
     storeGetTask c5w.repo "t1" = .ok sampleTask ∧
     (svcGetTask c5w "t1").2.repo = c5w.repo ∧
     (svcGetTask c5w "t1").2.m.cacheErrors = c5w.m.cacheErrors + 2) ∧
    ((svcGetTaskByUser c5w "t1" "u1").1 = .ok sampleTask ∧
     storeGetTaskByUser c5w.repo "t1" "u1" = .ok sampleTask ∧
     (svcGetTaskByUser c5w "t1" "u1").2.repo = c5w.repo ∧
     (svcGetTaskByUser c5w "t1" "u1").2.m.cacheErrors = c5w.m.cacheErrors + 2) ∧
    ((svcUpdateTask c5w c5upd).1 = (storeUpdateTask c5w c5upd).1 ∧
     (svcUpdateTask c5w c5upd).2.repo = (storeUpdateTask c5w c5upd).2 ∧
     (∃ t, (svcUpdateTask c5w c5upd).1 = .ok t) ∧
     (svcUpdateTask c5w c5upd).2.m.cacheErrors = c5w.m.cacheErrors + 2) ∧
    ((svcDeleteTask c5w "t1").1 = .ok () ∧
     (storeDeleteTask c5w.repo "t1").1 = .ok () ∧
     (svcDeleteTask c5w "t1").2.repo = (storeDeleteTask c5w.repo "t1").2 ∧
     (svcDeleteTask c5w "t1").2.m.cacheErrors = c5w.m.cacheErrors + 2) ∧
    ((svcDeleteTaskByUser c5w "t1" "u1").1 = .ok () ∧
     (storeDeleteTaskByUser c5w.repo "t1" "u1").1 = .ok () ∧
     (svcDeleteTaskByUser c5w "t1" "u1").2.repo =
       (storeDeleteTaskByUser c5w.repo "t1" "u1").2 ∧
     (svcDeleteTaskByUser c5w "t1" "u1").2.m.cacheErrors = c5w.m.cacheErrors + 2) ∧
    ((svcListTasks c5w none 1 10).1 = storeListTasks c5w.repo none 1 10 ∧
     (∃ r, (svcListTasks c5w none 1 10).1 = .ok r) ∧
     (svcListTasks c5w none 1 10).2.repo = c5w.repo ∧
     (svcListTasks c5w none 1 10).2.m.cacheErrors = c5w.m.cacheErrors + 2) ∧
    ((svcListTasksByUser c5w "u1" none 1 10).1 =
       storeListTasksByUser c5w.repo "u1" none 1 10 ∧
     (∃ r, (svcListTasksByUser c5w "u1" none 1 10).1 = .ok r) ∧
     (svcListTasksByUser c5w "u1" none 1 10).2.repo = c5w.repo ∧
     (svcListTasksByUser c5w "u1" none 1 10).2.m.cacheErrors = c5w.m.cacheErrors + 2) :=
  ⟨c5_cache_failures_absorbed.1 c5w c5create rfl (by decide),
   c5_cache_failures_absorbed.2.1 c5w "t1" sampleTask rfl (by decide),
   c5_cache_failures_absorbed.2.2.1 c5w "t1" "u1" sampleTask rfl (by decide),
   c5_cache_failures_absorbed.2.2.2.1 c5w c5upd sampleTask rfl (by decide),
   c5_cache_failures_absorbed.2.2.2.2.1 c5w "t1" sampleTask rfl (by decide),
   c5_cache_failures_absorbed.2.2.2.2.2.1 c5w "t1" "u1" sampleTask rfl (by decide),
   c5_cache_failures_absorbed.2.2.2.2.2.2.1 c5w none 1 10 rfl,
   c5_cache_failures_absorbed.2.2.2.2.2.2.2 c5w "u1" none 1 10 rfl⟩

theorem digitChar_val (v : Nat) (h : v < 10) : (Nat.digitChar v).toNat - 48 = v := by
  interval_cases v <;> rfl

theorem toDigitsCore_acc (fuel : Nat) :
    ∀ (n : Nat) (acc : List Char), n < fuel →
      Nat.toDigitsCore 10 fuel n acc = Nat.toDigitsCore 10 fuel n [] ++ acc := by
  induction fuel with
  | zero => intro n acc h; omega
  | succ fuel ih =>
      intro n acc h
      show (if n / 10 = 0 then Nat.digitChar (n % 10) :: acc
            else Nat.toDigitsCore 10 fuel (n / 10) (Nat.digitChar (n % 10) :: acc)) = _
      by_cases h0 : n / 10 = 0
      · have hone : Nat.toDigitsCore 10 (fuel+1) n [] = [Nat.digitChar (n % 10)] := by
          show (if n / 10 = 0 then Nat.digitChar (n % 10) :: []
            else Nat.toDigitsCore 10 fuel (n / 10) (Nat.digitChar (n % 10) :: [])) = _
          rw [if_pos h0]
        rw [if_pos h0, hone]
        rfl
      · have hlt : n / 10 < fuel := by
          have h1 : n / 10 < n := Nat.div_lt_self (by omega) (by omega)
          omega
        rw [if_neg h0, ih (n / 10) (Nat.digitChar (n % 10) :: acc) hlt]
        conv_rhs =>
          rw [show Nat.toDigitsCore 10 (fuel+1) n [] =
            (if n / 10 = 0 then Nat.digitChar (n % 10) :: []
             else Nat.toDigitsCore 10 fuel (n / 10) (Nat.digitChar (n % 10) :: [])) from rfl]
        rw [if_neg h0, ih (n / 10) [Nat.digitChar (n % 10)] hlt]
        simp

theorem parseFrom_toDigitsCore (fuel : Nat) :
    ∀ (n a : Nat), n < fuel →
      parseFrom a (Nat.toDigitsCore 10 fuel n []) =
        a * 10 ^ (Nat.toDigitsCore 10 fuel n []).length + n := by
  induction fuel with
  | zero => intro n a h; omega
  | succ fuel ih =>
      intro n a h
      by_cases h0 : n / 10 = 0
      · have hn : n < 10 := by omega
        show parseFrom a (if n / 10 = 0 then [Nat.digitChar (n % 10)]
          else Nat.toDigitsCore 10 fuel (n / 10) (Nat.digitChar (n % 10) :: [])) = _
        rw [if_pos h0]
        show a * 10 + ((Nat.digitChar (n % 10)).toNat - 48) = _
        rw [Nat.mod_eq_of_lt hn, digitChar_val n hn]
        have hl : (Nat.toDigitsCore 10 (fuel+1) n []).length = 1 := by
          show (if n / 10 = 0 then [Nat.digitChar (n % 10)]
            else Nat.toDigitsCore 10 fuel (n / 10) (Nat.digitChar (n % 10) :: [])).length = 1
          rw [if_pos h0]
          rfl
        rw [hl]
        omega
      · have hlt : n / 10 < fuel := by
          have h1 : n / 10 < n := Nat.div_lt_self (by omega) (by omega)
          omega
        have hsplit : Nat.toDigitsCore 10 (fuel+1) n [] =
            Nat.toDigitsCore 10 fuel (n / 10) [] ++ [Nat.digitChar (n % 10)] := by
          show (if n / 10 = 0 then [Nat.digitChar (n % 10)]
            else Nat.toDigitsCore 10 fuel (n / 10) (Nat.digitChar (n % 10) :: [])) = _
          rw [if_neg h0, toDigitsCore_acc fuel (n / 10) [Nat.digitChar (n % 10)] hlt]
        rw [hsplit]
        unfold parseFrom
        rw [List.foldl_append]
        show (parseFrom a (Nat.toDigitsCore 10 fuel (n / 10) [])) * 10 +
          ((Nat.digitChar (n % 10)).toNat - 48) = _
        rw [ih (n / 10) a hlt, digitChar_val (n % 10) (Nat.mod_lt n (by omega))]
        rw [List.length_append, List.length_singleton, pow_succ]
        have hdm : 10 * (n / 10) + n % 10 = n := Nat.div_add_mod n 10
        set k := 10 ^ (Nat.toDigitsCore 10 fuel (n / 10) []).length
        calc (a * k + n / 10) * 10 + n % 10
            = a * (k * 10) + (10 * (n / 10) + n % 10) := by ring
          _ = a * (k * 10) + n := by rw [hdm]

/-- `Nat.repr` (the `%d` rendering of keys' page and size) is injective. -/
theorem natRepr_inj (m n : Nat) (h : Nat.repr m = Nat.repr n) : m = n := by
  have hlist : Nat.toDigitsCore 10 (m+1) m [] = Nat.toDigitsCore 10 (n+1) n [] :=
    congrArg String.data h
  have hm := parseFrom_toDigitsCore (m+1) m 0 (by omega)
  have hn := parseFrom_toDigitsCore (n+1) n 0 (by omega)
  rw [Nat.zero_mul] at hm hn
  rw [← Nat.zero_add m, ← hm, ← Nat.zero_add n, ← hn, hlist]

theorem generateCacheKey_canonical (f : Option TaskFilter) (p s : Nat) :
    generateCacheKey "list" f p s =
      "list" ++ (fieldSeg "status" (statusField f) ++
        (fieldSeg "priority" (priorityField f) ++
          (fieldSeg "user" (userFilterField f) ++
            (sortSeg (sortPairOf f) ++ tailSeg p s)))) := by
  cases f with
  | none =>
      apply String.ext
      simp only [generateCacheKey, appendFilterParts, statusField, priorityField,
        userFilterField, sortPairOf, fieldSeg, sortSeg, tailSeg, joinColon,
        String.data_append, List.append_assoc, List.cons_append, List.nil_append]
  | some f =>
      apply String.ext
      simp only [generateCacheKey, appendFilterParts, statusField, priorityField,
        userFilterField, sortPairOf, normField, reduceIte]
      split_ifs <;>
        first
        | contradiction
        | simp only [fieldSeg, sortSeg, tailSeg, joinColon, String.data_append,
            List.append_assoc, List.cons_append, List.nil_append]

theorem generateUserCacheKey_canonical (u : String) (f : Option TaskFilter) (p s : Nat) :
    generateUserCacheKey u "list" f p s =
      "list" ++ (":user:" ++ (u ++
        (fieldSeg "status" (statusField f) ++
          (fieldSeg "priority" (priorityField f) ++
            (sortSeg (sortPairOf f) ++ tailSeg p s))))) := by
  cases f with
  | none =>
      apply String.ext
      simp only [generateUserCacheKey, appendFilterParts, statusField, priorityField,
        sortPairOf, fieldSeg, sortSeg, tailSeg, joinColon,
        String.data_append, List.append_assoc, List.cons_append, List.nil_append]
  | some f =>
      apply String.ext
      simp only [generateUserCacheKey, appendFilterParts, statusField, priorityField,
        sortPairOf, normField, reduceIte]
      split_ifs <;>
        first
        | contradiction
        | simp only [fieldSeg, sortSeg, tailSeg, joinColon, String.data_append,
            List.append_assoc, List.cons_append, List.nil_append]

theorem fieldSeg_data_inj (tag : String) (o1 o2 : Option String) (R : List Char)
    (h : (fieldSeg tag o1).data ++ R = (fieldSeg tag o2).data ++ R) : o1 = o2 := by
  have hcolon : (":" : String).data = [':'] := rfl
  cases o1 with
  | none =>
      cases o2 with
      | none => rfl
      | some v =>
          exfalso
          have h' : R = ((":" ++ tag ++ ":" ++ v)).data ++ R := by
            simpa [fieldSeg] using h
          have hl := congrArg List.length h'
          rw [List.length_append] at hl
          have hz : ((":" ++ tag ++ ":" ++ v)).data.length = 0 := by omega
          simp only [String.data_append, hcolon, List.length_append,
            List.length_cons, List.length_nil] at hz
          omega
  | some v1 =>
      cases o2 with
      | none =>
          exfalso
          have h' : ((":" ++ tag ++ ":" ++ v1)).data ++ R = R := by
            simpa [fieldSeg] using h
          have hl := congrArg List.length h'
          rw [List.length_append] at hl
          have hz : ((":" ++ tag ++ ":" ++ v1)).data.length = 0 := by omega
          simp only [String.data_append, hcolon, List.length_append,
            List.length_cons, List.length_nil] at hz
          omega
      | some v2 =>
          have h' : ((":" ++ tag ++ ":" ++ v1)).data ++ R =
              ((":" ++ tag ++ ":" ++ v2)).data ++ R := by
            simpa [fieldSeg] using h
          simp only [String.data_append, hcolon, List.cons_append, List.nil_append,
            List.append_assoc, List.cons.injEq, true_and] at h'
          have h2 := List.append_cancel_left h'
          simp only [List.cons.injEq, true_and] at h2
          have h3 := List.append_cancel_right h2
          rw [String.ext h3]

theorem sortSeg_data_inj (o1 o2 : Option (String × Bool)) (R : List Char)
    (h : (sortSeg o1).data ++ R = (sortSeg o2).data ++ R) : o1 = o2 := by
  have hcolon : (":sort:" : String).data = [':', 's', 'o', 'r', 't', ':'] := rfl
  cases o1 with
  | none =>
      cases o2 with
      | none => rfl
      | some bd =>
          obtain ⟨b, d⟩ := bd
          exfalso
          have h' : R = ((":sort:" ++ b ++ ":" ++ dirStr d)).data ++ R := by
            simpa [sortSeg] using h
          have hl := congrArg List.length h'
          rw [List.length_append] at hl
          have hz : ((":sort:" ++ b ++ ":" ++ dirStr d)).data.length = 0 := by omega
          simp only [String.data_append, hcolon, List.length_append,
            List.length_cons, List.length_nil] at hz
          omega
  | some bd1 =>
      obtain ⟨b1, d1⟩ := bd1
      cases o2 with
      | none =>
          exfalso
          have h' : ((":sort:" ++ b1 ++ ":" ++ dirStr d1)).data ++ R = R := by
            simpa [sortSeg] using h
          have hl := congrArg List.length h'
          rw [List.length_append] at hl
          have hz : ((":sort:" ++ b1 ++ ":" ++ dirStr d1)).data.length = 0 := by omega
          simp only [String.data_append, hcolon, List.length_append,
            List.length_cons, List.length_nil] at hz
          omega
      | some bd2 =>
          obtain ⟨b2, d2⟩ := bd2
          have h' : ((":sort:" ++ b1 ++ ":" ++ dirStr d1)).data ++ R =
              ((":sort:" ++ b2 ++ ":" ++ dirStr d2)).data ++ R := by
            simpa [sortSeg] using h
          simp only [String.data_append, hcolon, List.cons_append, List.nil_append,
            List.append_assoc, List.cons.injEq, true_and] at h'
          cases d1 <;> cases d2
          · -- both ascending
            simp only [dirStr, reduceIte] at h'
            have h2 := List.append_cancel_right h'
            have h3 := String.ext h2
            rw [h3]
          · -- asc vs desc: compare the reversed strings
            exfalso
            have hrev := congrArg List.reverse h'
            simp only [dirStr, reduceIte, List.reverse_append,
              show ("asc" : String).data = ['a', 's', 'c'] from rfl,
              show ("desc" : String).data = ['d', 'e', 's', 'c'] from rfl,
              List.reverse_cons, List.reverse_nil, List.nil_append,
              List.cons_append, List.append_assoc, List.nil_append] at hrev
            have hrev2 := List.append_cancel_left hrev
            simp at hrev2
          · -- desc vs asc
            exfalso
            have hrev := congrArg List.reverse h'
            simp only [dirStr, reduceIte, List.reverse_append,
              show ("asc" : String).data = ['a', 's', 'c'] from rfl,
              show ("desc" : String).data = ['d', 'e', 's', 'c'] from rfl,
              List.reverse_cons, List.reverse_nil, List.nil_append,
              List.cons_append, List.append_assoc, List.nil_append] at hrev
            have hrev2 := List.append_cancel_left hrev
            simp at hrev2
          · -- both descending
            simp only [dirStr, reduceIte] at h'
            have h2 := List.append_cancel_right h'
            have h3 := String.ext h2
            rw [h3]

theorem tailSeg_data_inj_page (p1 p2 s : Nat)
    (h : (tailSeg p1 s).data = (tailSeg p2 s).data) : p1 = p2 := by
  have hpage : (":page:" : String).data = [':', 'p', 'a', 'g', 'e', ':'] := rfl
  have hsize : (":size:" : String).data = [':', 's', 'i', 'z', 'e', ':'] := rfl
  simp only [tailSeg, String.data_append, hpage, hsize, List.cons_append,
    List.nil_append, List.append_assoc, List.cons.injEq, true_and] at h
  have h1 := List.append_cancel_right h
  exact natRepr_inj p1 p2 (String.ext h1)

theorem tailSeg_data_inj_size (p s1 s2 : Nat)
    (h : (tailSeg p s1).data = (tailSeg p s2).data) : s1 = s2 := by
  have hpage : (":page:" : String).data = [':', 'p', 'a', 'g', 'e', ':'] := rfl
  have hsize : (":size:" : String).data = [':', 's', 'i', 'z', 'e', ':'] := rfl
  simp only [tailSeg, String.data_append, hpage, hsize, List.cons_append,
    List.nil_append, List.append_assoc, List.cons.injEq, true_and] at h
  have h1 := List.append_cancel_left h
  simp only [List.cons.injEq, true_and] at h1
  exact natRepr_inj s1 s2 (String.ext h1)

theorem generateCacheKey_data (f : Option TaskFilter) (p s : Nat) :
    (generateCacheKey "list" f p s).data =
      "list".data ++ ((fieldSeg "status" (statusField f)).data ++
        ((fieldSeg "priority" (priorityField f)).data ++
          ((fieldSeg "user" (userFilterField f)).data ++
            ((sortSeg (sortPairOf f)).data ++ (tailSeg p s).data)))) := by
  rw [generateCacheKey_canonical]
  simp only [String.data_append]

theorem generateUserCacheKey_data (u : String) (f : Option TaskFilter) (p s : Nat) :
    (generateUserCacheKey u "list" f p s).data =
      "list".data ++ (":user:".data ++ (u.data ++
        ((fieldSeg "status" (statusField f)).data ++
          ((fieldSeg "priority" (priorityField f)).data ++
            ((sortSeg (sortPairOf f)).data ++ (tailSeg p s).data))))) := by
  rw [generateUserCacheKey_canonical]
  simp only [String.data_append]

/-- C3 counterexample: the two descriptors differ in exactly one field
(the sort direction) yet derive byte-identical keys, in both the unscoped
and the owner-scoped derivation — the direction is unobservable when no
sort field is set. -/
theorem c3_counterexample :
    c3fA ≠ c3fB ∧ c3fA.sortDesc ≠ c3fB.sortDesc ∧
    c3fA.status = c3fB.status ∧ c3fA.priority = c3fB.priority ∧
    c3fA.userID = c3fB.userID ∧ c3fA.sortBy = c3fB.sortBy ∧
    generateCacheKey "list" (some c3fA) 1 10 =
      generateCacheKey "list" (some c3fB) 1 10 ∧
    generateUserCacheKey "u1" "list" (some c3fA) 1 10 =
      generateUserCacheKey "u1" "list" (some c3fB) 1 10 := by
  decide

/-- C3 (amended): key derivation is deterministic — it depends only on the
normalized descriptor (absent and empty-string filter values coincide, and
the sort direction is observable only when a sort field is set) — and is
collision-free one field at a time: two descriptors that agree on all but
one observable component (status, priority, user filter, sort request,
owner, page, size) derive different keys, and an owner-scoped key never
coincides with an unscoped key for a filter without a user segment. -/
theorem c3_cache_key_amended :
    (∀ (f1 f2 : Option TaskFilter) (p s : Nat),
      statusField f1 = statusField f2 → priorityField f1 = priorityField f2 →
      userFilterField f1 = userFilterField f2 → sortPairOf f1 = sortPairOf f2 →
      generateCacheKey "list" f1 p s = generateCacheKey "list" f2 p s) ∧
    (∀ (u : String) (f1 f2 : Option TaskFilter) (p s : Nat),
      statusField f1 = statusField f2 → priorityField f1 = priorityField f2 →
      sortPairOf f1 = sortPairOf f2 →
      generateUserCacheKey u "list" f1 p s = generateUserCacheKey u "list" f2 p s) ∧
    (∀ (f1 f2 : Option TaskFilter) (p s : Nat),
      priorityField f1 = priorityField f2 → userFilterField f1 = userFilterField f2 →
      sortPairOf f1 = sortPairOf f2 → statusField f1 ≠ statusField f2 →
      generateCacheKey "list" f1 p s ≠ generateCacheKey "list" f2 p s) ∧
    (∀ (f1 f2 : Option TaskFilter) (p s : Nat),
      statusField f1 = statusField f2 → userFilterField f1 = userFilterField f2 →
      sortPairOf f1 = sortPairOf f2 → priorityField f1 ≠ priorityField f2 →
      generateCacheKey "list" f1 p s ≠ generateCacheKey "list" f2 p s) ∧
    (∀ (f1 f2 : Option TaskFilter) (p s : Nat),
      statusField f1 = statusField f2 → priorityField f1 = priorityField f2 →
      sortPairOf f1 = sortPairOf f2 → userFilterField f1 ≠ userFilterField f2 →
      generateCacheKey "list" f1 p s ≠ generateCacheKey "list" f2 p s) ∧
    (∀ (f1 f2 : Option TaskFilter) (p s : Nat),
      statusField f1 = statusField f2 → priorityField f1 = priorityField f2 →
      userFilterField f1 = userFilterField f2 → sortPairOf f1 ≠ sortPairOf f2 →
      generateCacheKey "list" f1 p s ≠ generateCacheKey "list" f2 p s) ∧
    (∀ (f : Option TaskFilter) (p1 p2 s : Nat), p1 ≠ p2 →
      generateCacheKey "list" f p1 s ≠ generateCacheKey "list" f p2 s) ∧
    (∀ (f : Option TaskFilter) (p s1 s2 : Nat), s1 ≠ s2 →
      generateCacheKey "list" f p s1 ≠ generateCacheKey "list" f p s2) ∧
    (∀ (u1 u2 : String) (f : Option TaskFilter) (p s : Nat), u1 ≠ u2 →
      generateUserCacheKey u1 "list" f p s ≠ generateUserCacheKey u2 "list" f p s) ∧
    (∀ (u : String) (f1 f2 : Option TaskFilter) (p s : Nat),
      priorityField f1 = priorityField f2 → sortPairOf f1 = sortPairOf f2 →
      statusField f1 ≠ statusField f2 →
      generateUserCacheKey u "list" f1 p s ≠ generateUserCacheKey u "list" f2 p s) ∧
    (∀ (u : String) (f1 f2 : Option TaskFilter) (p s : Nat),
      statusField f1 = statusField f2 → sortPairOf f1 = sortPairOf f2 →
      priorityField f1 ≠ priorityField f2 →
      generateUserCacheKey u "list" f1 p s ≠ generateUserCacheKey u "list" f2 p s) ∧
    (∀ (u : String) (f1 f2 : Option TaskFilter) (p s : Nat),
      statusField f1 = statusField f2 → priorityField f1 = priorityField f2 →
      sortPairOf f1 ≠ sortPairOf f2 →
      generateUserCacheKey u "list" f1 p s ≠ generateUserCacheKey u "list" f2 p s) ∧
    (∀ (u : String) (f : Option TaskFilter) (p1 p2 s : Nat), p1 ≠ p2 →
      generateUserCacheKey u "list" f p1 s ≠ generateUserCacheKey u "list" f p2 s) ∧
    (∀ (u : String) (f : Option TaskFilter) (p s1 s2 : Nat), s1 ≠ s2 →
      generateUserCacheKey u "list" f p s1 ≠ generateUserCacheKey u "list" f p s2) ∧
    (∀ (u : String) (f : Option TaskFilter) (p s : Nat),
      userFilterField f = none →
      generateCacheKey "list" f p s ≠ generateUserCacheKey u "list" f p s) := by
  refine ⟨?_, ?_, ?_, ?_, ?_, ?_, ?_, ?_, ?_, ?_, ?_, ?_, ?_, ?_, ?_⟩
  · intro f1 f2 p s h1 h2 h3 h4
    rw [generateCacheKey_canonical, generateCacheKey_canonical, h1, h2, h3, h4]
  · intro u f1 f2 p s h1 h2 h3
    rw [generateUserCacheKey_canonical, generateUserCacheKey_canonical, h1, h2, h3]
  · intro f1 f2 p s h2 h3 h4 h1 hkey
    have hd := congrArg String.data hkey
    rw [generateCacheKey_data, generateCacheKey_data, h2, h3, h4] at hd
    exact h1 (fieldSeg_data_inj _ _ _ _ (List.append_cancel_left hd))
  · intro f1 f2 p s h1 h3 h4 h2 hkey
    have hd := congrArg String.data hkey
    rw [generateCacheKey_data, generateCacheKey_data, h1, h3, h4] at hd
    exact h2 (fieldSeg_data_inj _ _ _ _
      (List.append_cancel_left (List.append_cancel_left hd)))
  · intro f1 f2 p s h1 h2 h4 h3 hkey
    have hd := congrArg String.data hkey
    rw [generateCacheKey_data, generateCacheKey_data, h1, h2, h4] at hd
    exact h3 (fieldSeg_data_inj _ _ _ _
      (List.append_cancel_left (List.append_cancel_left (List.append_cancel_left hd))))
  · intro f1 f2 p s h1 h2 h3 h4 hkey
    have hd := congrArg String.data hkey
    rw [generateCacheKey_data, generateCacheKey_data, h1, h2, h3] at hd
    exact h4 (sortSeg_data_inj _ _ _
      (List.append_cancel_left (List.append_cancel_left
        (List.append_cancel_left (List.append_cancel_left hd)))))
  · intro f p1 p2 s hp hkey
    have hd := congrArg String.data hkey
    rw [generateCacheKey_data, generateCacheKey_data] at hd
    exact hp (tailSeg_data_inj_page p1 p2 s
      (List.append_cancel_left (List.append_cancel_left (List.append_cancel_left
        (List.append_cancel_left (List.append_cancel_left hd))))))
  · intro f p s1 s2 hs hkey
    have hd := congrArg String.data hkey
    rw [generateCacheKey_data, generateCacheKey_data] at hd
    exact hs (tailSeg_data_inj_size p s1 s2
      (List.append_cancel_left (List.append_cancel_left (List.append_cancel_left
        (List.append_cancel_left (List.append_cancel_left hd))))))
  · intro u1 u2 f p s hu hkey
    have hd := congrArg String.data hkey
    rw [generateUserCacheKey_data, generateUserCacheKey_data] at hd
    have hd2 := List.append_cancel_left (List.append_cancel_left hd)
    exact hu (String.ext (List.append_cancel_right hd2))
  · intro u f1 f2 p s h2 h3 h1 hkey
    have hd := congrArg String.data hkey
    rw [generateUserCacheKey_data, generateUserCacheKey_data, h2, h3] at hd
    exact h1 (fieldSeg_data_inj _ _ _ _
      (List.append_cancel_left (List.append_cancel_left (List.append_cancel_left hd))))
  · intro u f1 f2 p s h1 h3 h2 hkey
    have hd := congrArg String.data hkey
    rw [generateUserCacheKey_data, generateUserCacheKey_data, h1, h3] at hd
    exact h2 (fieldSeg_data_inj _ _ _ _
      (List.append_cancel_left (List.append_cancel_left
        (List.append_cancel_left (List.append_cancel_left hd)))))
  · intro u f1 f2 p s h1 h2 h3 hkey
    have hd := congrArg String.data hkey
    rw [generateUserCacheKey_data, generateUserCacheKey_data, h1, h2] at hd
    exact h3 (sortSeg_data_inj _ _ _
      (List.append_cancel_left (List.append_cancel_left (List.append_cancel_left
        (List.append_cancel_left (List.append_cancel_left hd))))))
  · intro u f p1 p2 s hp hkey
    have hd := congrArg String.data hkey
    rw [generateUserCacheKey_data, generateUserCacheKey_data] at hd
    exact hp (tailSeg_data_inj_page p1 p2 s
      (List.append_cancel_left (List.append_cancel_left (List.append_cancel_left
        (List.append_cancel_left (List.append_cancel_left (List.append_cancel_left hd)))))))
  · intro u f p s1 s2 hs hkey
    have hd := congrArg String.data hkey
    rw [generateUserCacheKey_data, generateUserCacheKey_data] at hd
    exact hs (tailSeg_data_inj_size p s1 s2
      (List.append_cancel_left (List.append_cancel_left (List.append_cancel_left
        (List.append_cancel_left (List.append_cancel_left (List.append_cancel_left hd)))))))
  · intro u f p s hU hkey
    have hd := congrArg String.data hkey
    rw [generateCacheKey_data, generateUserCacheKey_data, hU] at hd
    have hd2 := List.append_cancel_left hd
    cases hS : statusField f with
    | some v =>
        rw [hS] at hd2
        simp only [fieldSeg, String.data_append,
          show (":" : String).data = [':'] from rfl,
          show ("status" : String).data = ['s', 't', 'a', 't', 'u', 's'] from rfl,
          show (":user:" : String).data = [':', 'u', 's', 'e', 'r', ':'] from rfl,
          List.cons_append, List.nil_append, List.cons.injEq] at hd2
        simp at hd2
    | none =>
        rw [hS] at hd2
        cases hP : priorityField f with
        | some v =>
            rw [hP] at hd2
            simp only [fieldSeg, String.data_append,
              show (":" : String).data = [':'] from rfl,
              show ("priority" : String).data =
                ['p', 'r', 'i', 'o', 'r', 'i', 't', 'y'] from rfl,
              show ("" : String).data = [] from rfl,
              show (":user:" : String).data = [':', 'u', 's', 'e', 'r', ':'] from rfl,
              List.cons_append, List.nil_append, List.cons.injEq] at hd2
            simp at hd2
        | none =>
            rw [hP] at hd2
            cases hSo : sortPairOf f with
            | some bd =>
                obtain ⟨b, d⟩ := bd
                rw [hSo] at hd2
                simp only [fieldSeg, sortSeg, String.data_append,
                  show (":sort:" : String).data = [':', 's', 'o', 'r', 't', ':'] from rfl,
                  show ("" : String).data = [] from rfl,
                  show (":user:" : String).data = [':', 'u', 's', 'e', 'r', ':'] from rfl,
                  List.cons_append, List.nil_append, List.cons.injEq] at hd2
                simp at hd2
            | none =>
                rw [hSo] at hd2
                simp only [fieldSeg, sortSeg, tailSeg, String.data_append,
                  show (":page:" : String).data = [':', 'p', 'a', 'g', 'e', ':'] from rfl,
                  show ("" : String).data = [] from rfl,
                  show (":user:" : String).data = [':', 'u', 's', 'e', 'r', ':'] from rfl,
                  List.cons_append, List.nil_append, List.cons.injEq] at hd2
                simp at hd2

/-- C3 witness: each amended clause at concrete descriptors — coalescing
of empty-valued filters with absent ones, and one-field collisions ruled
out for every observable component. -/
theorem c3_cache_key_amended_witness :
    (generateCacheKey "list" (some ⟨some "", some "", some "", "", true⟩) 1 10 =
      generateCacheKey "list" none 1 10) ∧
    (generateUserCacheKey "u1" "list" (some ⟨some "", some "", none, "", true⟩) 1 10 =
      generateUserCacheKey "u1" "list" none 1 10) ∧
    (generateCacheKey "list" (some ⟨some "todo", none, none, "", false⟩) 1 10 ≠
      generateCacheKey "list" (some ⟨some "done", none, none, "", false⟩) 1 10) ∧
    (generateCacheKey "list" (some ⟨none, some "low", none, "", false⟩) 1 10 ≠
      generateCacheKey "list" (some ⟨none, some "high", none, "", false⟩) 1 10) ∧
    (generateCacheKey "list" (some ⟨none, none, some "u1", "", false⟩) 1 10 ≠
      generateCacheKey "list" (some ⟨none, none, some "u2", "", false⟩) 1 10) ∧
    (generateCacheKey "list" (some ⟨none, none, none, "title", false⟩) 1 10 ≠
      generateCacheKey "list" (some ⟨none, none, none, "title", true⟩) 1 10) ∧
    (generateCacheKey "list" none 1 10 ≠ generateCacheKey "list" none 2 10) ∧
    (generateCacheKey "list" none 1 10 ≠ generateCacheKey "list" none 1 20) ∧
    (generateUserCacheKey "u1" "list" none 1 10 ≠
      generateUserCacheKey "u2" "list" none 1 10) ∧
    (generateUserCacheKey "u1" "list" (some ⟨some "todo", none, none, "", false⟩) 1 10 ≠
      generateUserCacheKey "u1" "list" (some ⟨some "done", none, none, "", false⟩) 1 10) ∧
    (generateUserCacheKey "u1" "list" (some ⟨none, some "low", none, "", false⟩) 1 10 ≠
      generateUserCacheKey "u1" "list" (some ⟨none, some "high", none, "", false⟩) 1 10) ∧
    (generateUserCacheKey "u1" "list" (some ⟨none, none, none, "title", false⟩) 1 10 ≠
      generateUserCacheKey "u1" "list" (some ⟨none, none, none, "title", true⟩) 1 10) ∧
    (generateUserCacheKey "u1" "list" none 1 10 ≠
      generateUserCacheKey "u1" "list" none 2 10) ∧
    (generateUserCacheKey "u1" "list" none 1 10 ≠
      generateUserCacheKey "u1" "list" none 1 20) ∧
    (generateCacheKey "list" none 1 10 ≠ generateUserCacheKey "u1" "list" none 1 10) :=
  ⟨c3_cache_key_amended.1 _ _ 1 10 (by decide) (by decide) (by decide) (by decide),
   c3_cache_key_amended.2.1 "u1" _ _ 1 10 (by decide) (by decide) (by decide),
   c3_cache_key_amended.2.2.1 _ _ 1 10 (by decide) (by decide) (by decide) (by decide),
   c3_cache_key_amended.2.2.2.1 _ _ 1 10 (by decide) (by decide) (by decide) (by decide),
   c3_cache_key_amended.2.2.2.2.1 _ _ 1 10 (by decide) (by decide) (by decide) (by decide),
   c3_cache_key_amended.2.2.2.2.2.1 _ _ 1 10 (by decide) (by decide) (by decide) (by decide),
   c3_cache_key_amended.2.2.2.2.2.2.1 none 1 2 10 (by decide),
   c3_cache_key_amended.2.2.2.2.2.2.2.1 none 1 10 20 (by decide),
   c3_cache_key_amended.2.2.2.2.2.2.2.2.1 "u1" "u2" none 1 10 (by decide),
   c3_cache_key_amended.2.2.2.2.2.2.2.2.2.1 "u1" _ _ 1 10 (by decide) (by decide) (by decide),
   c3_cache_key_amended.2.2.2.2.2.2.2.2.2.2.1 "u1" _ _ 1 10 (by decide) (by decide) (by decide),
   c3_cache_key_amended.2.2.2.2.2.2.2.2.2.2.2.1 "u1" _ _ 1 10 (by decide) (by decide) (by decide),
   c3_cache_key_amended.2.2.2.2.2.2.2.2.2.2.2.2.1 "u1" none 1 2 10 (by decide),
   c3_cache_key_amended.2.2.2.2.2.2.2.2.2.2.2.2.2.1 "u1" none 1 10 20 (by decide),
   c3_cache_key_amended.2.2.2.2.2.2.2.2.2.2.2.2.2.2 "u1" none 1 10 (by decide)⟩

/-- C4 witness: the amended sort clauses at concrete filters — empty sort
field, an unrecognized field with descending requested, and a
case-insensitively allow-listed field. -/
theorem c4_sort_allowlist_amended_witness :
    applySorting (some ⟨none, none, none, "", false⟩) = "created_at DESC" ∧
    applySorting (some ⟨none, none, none, "bogus", true⟩) = "created_at " ++ "DESC" ∧
    (applySorting (some ⟨none, none, none, "DuE_dAtE", true⟩) =
      mapSortField "DuE_dAtE" ++ " " ++ "DESC" ∧
     mapSortField "DuE_dAtE" = strLower "DuE_dAtE") :=
  ⟨c4_sort_allowlist_amended.2.1 ⟨none, none, none, "", false⟩ (by decide),
   c4_sort_allowlist_amended.2.2.1 ⟨none, none, none, "bogus", true⟩
     (by decide) (by decide),
   c4_sort_allowlist_amended.2.2.2 ⟨none, none, none, "DuE_dAtE", true⟩ (by decide)⟩

/-- C9 witness: the partial-update frame at a concrete update that sets
only the title and the status. -/
theorem c9_partial_update_frame_witness :
    ∃ t2, (svcUpdateTask c9w c9req).1 = .ok t2 ∧
      t2.id = sampleTask.id ∧ t2.userID = sampleTask.userID ∧
      t2.createdAt = sampleTask.createdAt ∧
      (c9req.title = none → t2.title = sampleTask.title) ∧
      (∀ v, c9req.title = some v → t2.title = v) ∧
      (c9req.description = none → t2.description = sampleTask.description) ∧
      (∀ v, c9req.description = some v → t2.description = v) ∧
      (c9req.status = none → t2.status = sampleTask.status) ∧
      (∀ v, c9req.status = some v → t2.status = fromProtoStatus v) ∧
      (c9req.priority = none → t2.priority = sampleTask.priority) ∧
      (∀ v, c9req.priority = some v → t2.priority = fromProtoPriority v) ∧
      (c9req.dueDate = none → t2.dueDate = sampleTask.dueDate) ∧
      (∀ v, c9req.dueDate = some v → t2.dueDate = some v) ∧
      (svcUpdateTask c9w c9req).2.repo =
        c9w.repo.map (fun x => if x.id == sampleTask.id then t2 else x) ∧
      findByID (svcUpdateTask c9w c9req).2.repo sampleTask.id = some t2 :=
  c9_partial_update_frame c9w c9req sampleTask (by decide)

end TaskManager
